import Mathlib

/-!
# ffbsdl: a console front end for SDL force-feedback devices

A shallow embedding of `src/ffbsdl.c` and the properties of its bounded
integer reader, its effect factories and its slot table.

Modelling conventions.

* Machine integers are `Int`; a store into a C object of a given width is an
  explicit wrap (`toInt32`, `toUint32`, `toSint16`, `toUint16`, `toUint8`).
* Standard input is an unending stream of characters, kept as the unread rest
  of the current line followed by the lines still to come (`Stdin`).  End of
  input is not modelled: the program reads from an interactive console.
* The haptic device is an oracle (`World.registration`: the value the k-th
  `SDL_HapticNewEffect` call returns) together with a log of the operations
  issued to it (`World.log`).
* The function-local `static` variables are fields of `World`.
-/

namespace Ffbsdl

/-! ## Limits and integer conversions (`<limits.h>`, LP64) -/

def INT_MIN : Int := -2147483648
def INT_MAX : Int := 2147483647
def UINT_MAX : Int := 4294967295
def USHRT_MAX : Int := 65535
def SHRT_MIN : Int := -32768
def SHRT_MAX : Int := 32767
def LONG_MIN : Int := -9223372036854775808
def LONG_MAX : Int := 9223372036854775807

/-- Conversion to `int` (two's complement, 32 bits). -/
def toInt32 (v : Int) : Int := (v + 2147483648) % 4294967296 - 2147483648

/-- Conversion to `uint32_t` / `Uint32`. -/
def toUint32 (v : Int) : Int := v % 4294967296

/-- Conversion to `Sint16`. -/
def toSint16 (v : Int) : Int := (v + 32768) % 65536 - 32768

/-- Conversion to `Uint16`. -/
def toUint16 (v : Int) : Int := v % 65536

/-- Conversion to `Uint8`. -/
def toUint8 (v : Int) : Int := v % 256

/-! ## Standard input -/

/-- The unread part of standard input: the characters `buf`, then line
`lines next`, a newline, line `lines (next + 1)`, a newline, and so on. -/
structure Stdin where
  buf : List Char
  lines : Nat → List Char
  next : Nat

/-- Bring the next line into the buffer unless the buffer already holds a
newline; the character stream denoted is unchanged. -/
def Stdin.fill (s : Stdin) : Stdin :=
  if '\n' ∈ s.buf then s
  else { s with buf := s.buf ++ s.lines s.next ++ ['\n'], next := s.next + 1 }

/-- The text of the line about to be read, without its newline. -/
def Stdin.line (s : Stdin) : List Char :=
  s.fill.buf.takeWhile (fun c => c != '\n')

/-- The first `n` characters of `cs`, stopping after the first newline. -/
def takeLine : Nat → List Char → List Char
  | 0, _ => []
  | _, [] => []
  | n + 1, c :: cs => if c = '\n' then [c] else c :: takeLine n cs

/-- The call `fgets(in, size, stdin)`: at most `size - 1` characters, up to and including
the first newline.  Returns the characters stored and the input left. -/
def fgets (size : Nat) (s : Stdin) : List Char × Stdin :=
  let s := s.fill
  let inb := takeLine (size - 1) s.buf
  (inb, { s with buf := s.buf.drop inb.length })

/-- The call `scanf("%c", &c)`: the next character of the input. -/
def scanf_c (s : Stdin) : Char × Stdin :=
  let s := s.fill
  (s.buf.headD '\n', { s with buf := s.buf.drop 1 })

/-- Source lines 148-150: `while(getchar() != '\n');`. -/
def discard_line (s : Stdin) : Stdin :=
  let s := s.fill
  { s with buf := (s.buf.dropWhile (fun c => c != '\n')).drop 1 }

/-! ## `sscanf(in, "%i", &res)` -/

/-- The predicate `isspace` in the C locale. -/
def isspace (c : Char) : Bool :=
  c == ' ' || c == '\t' || c == '\n' || c == Char.ofNat 11 || c == Char.ofNat 12 || c == '\r'

/-- Value of a character as a digit, letters standing for 10 to 35. -/
def digit_value (c : Char) : Option Nat :=
  if 48 ≤ c.toNat ∧ c.toNat ≤ 57 then some (c.toNat - 48)
  else if 97 ≤ c.toNat ∧ c.toNat ≤ 122 then some (c.toNat - 87)
  else if 65 ≤ c.toNat ∧ c.toNat ≤ 90 then some (c.toNat - 55)
  else none

/-- Whether `c` is a digit in the given base. -/
def is_digit (base : Nat) (c : Char) : Bool :=
  match digit_value c with
  | some d => decide (d < base)
  | none => false

/-- Accumulate the longest run of digits of the given base. -/
def scan_digits (base : Nat) (acc : Nat) : List Char → Nat
  | [] => acc
  | c :: cs =>
    match digit_value c with
    | some d => if d < base then scan_digits base (acc * base + d) cs else acc
    | none => acc

/-- Saturation of `strtol` at the bounds of `long`. -/
def strtol_sat (v : Int) : Int :=
  if v > LONG_MAX then LONG_MAX else if v < LONG_MIN then LONG_MIN else v

/-- The magnitude read by `%i` after the optional sign: `0x`/`0X` selects base
16, a leading `0` base 8, otherwise base 10; `none` when there is no digit
(matching failure).  A bare `0x` reads as 0, as in glibc. -/
def scan_magnitude (s : List Char) : Option Nat :=
  match s with
  | [] => none
  | c :: t =>
    if c = '0' then
      match t with
      | [] => some 0
      | x :: u =>
        if x = 'x' ∨ x = 'X' then some (scan_digits 16 0 u)
        else some (scan_digits 8 0 t)
    else if is_digit 10 c then some (scan_digits 10 0 (c :: t))
    else none

/-- The conversion `sscanf(in, "%i", &res)`: `some v` when an `int` is
stored, `none` when `res` is left untouched.  White space is skipped, a sign
is optional, the digits are converted as by `strtol` and the `long` result is
narrowed to `int` (glibc). -/
def sscanf_i (s : List Char) : Option Int :=
  let s := s.dropWhile isspace
  let signed : Bool × List Char :=
    match s with
    | [] => (false, s)
    | c :: t => if c = '-' then (true, t) else if c = '+' then (false, t) else (false, s)
  match scan_magnitude signed.2 with
  | none => none
  | some m => some (toInt32 (strtol_sat (if signed.1 then -(m : Int) else (m : Int))))

/-! ## The effect record (`SDL_haptic.h`)

`SDL_HapticEffect` is a C union whose arms `constant`, `periodic`,
`condition` and `ramp` all begin with the same members `type`, `direction`,
`length`, `delay`, `button`, `interval` (a common initial sequence, so
`effect->type`, `effect->ramp.type` and `effect->constant.type` name one
object).  Those members are the first six fields of the record below; what
follows them in each arm is kept in a record of its own.  Storage shared
between the arms after the common members is not modelled: in the program
a write through one arm shows through the others (after `create_ramp`, whose
line 414 leaves `type` at `SDL_HAPTIC_TRIANGLE`, `modify_effect` runs the
periodic editor and `periodic.period` overwrites `ramp.start`), in the record
it does not.  The properties proved below read an arm only through the
family that wrote it. -/

def SDL_HAPTIC_CONSTANT : Int := 1
def SDL_HAPTIC_SINE : Int := 2
def SDL_HAPTIC_TRIANGLE : Int := 8
def SDL_HAPTIC_SAWTOOTHUP : Int := 16
def SDL_HAPTIC_SAWTOOTHDOWN : Int := 32
def SDL_HAPTIC_RAMP : Int := 64
def SDL_HAPTIC_SPRING : Int := 128
def SDL_HAPTIC_DAMPER : Int := 256
def SDL_HAPTIC_INERTIA : Int := 512
def SDL_HAPTIC_FRICTION : Int := 1024
def SDL_HAPTIC_CARTESIAN : Int := 1

/-- An array of three integers, `x[0]`, `x[1]`, `x[2]`. -/
structure Arr3 where
  i0 : Int
  i1 : Int
  i2 : Int
deriving DecidableEq

/-- The struct `SDL_HapticDirection`: `Uint8 type; Sint32 dir[3]`. -/
structure SDL_HapticDirection where
  type : Int
  dir : Arr3
deriving DecidableEq

/-- Members of `SDL_HapticConstant` after the common ones: `Sint16 level`, then
the envelope, four `Uint16`. -/
structure SDL_HapticConstant where
  level : Int
  attack_length : Int
  attack_level : Int
  fade_length : Int
  fade_level : Int
deriving DecidableEq

/-- Members of `SDL_HapticPeriodic` after the common ones: `Uint16 period`,
`Sint16 magnitude`, `Sint16 offset`, `Uint16 phase`, then the envelope. -/
structure SDL_HapticPeriodic where
  period : Int
  magnitude : Int
  offset : Int
  phase : Int
  attack_length : Int
  attack_level : Int
  fade_length : Int
  fade_level : Int
deriving DecidableEq

/-- Members of `SDL_HapticCondition` after the common ones: `Uint16 right_sat[3]`,
`Uint16 left_sat[3]`, `Sint16 right_coeff[3]`, `Sint16 left_coeff[3]`,
`Uint16 deadband[3]`, `Sint16 center[3]`. -/
structure SDL_HapticCondition where
  right_sat : Arr3
  left_sat : Arr3
  right_coeff : Arr3
  left_coeff : Arr3
  deadband : Arr3
  center : Arr3
deriving DecidableEq

/-- Members of `SDL_HapticRamp` after the common ones: `Sint16 start`,
`Sint16 end` (here `end_`), then the envelope. -/
structure SDL_HapticRamp where
  start : Int
  end_ : Int
  attack_length : Int
  attack_level : Int
  fade_length : Int
  fade_level : Int
deriving DecidableEq

/-- The union `SDL_HapticEffect`: `Uint16 type`, `SDL_HapticDirection direction`,
`Uint32 length`, `Uint16 delay`, `Uint16 button`, `Uint16 interval`, then the arms. -/
structure SDL_HapticEffect where
  type : Int
  direction : SDL_HapticDirection
  length : Int
  delay : Int
  button : Int
  interval : Int
  constant : SDL_HapticConstant
  periodic : SDL_HapticPeriodic
  condition : SDL_HapticCondition
  ramp : SDL_HapticRamp
deriving DecidableEq

/-- Source lines 53-57. -/
structure haptic_elem where
  effect : SDL_HapticEffect
  id : Int
  active : Bool
deriving DecidableEq

/-- Source lines 10-46. -/
inductive choice where
  | CREATE_EFFECT | MODIFY_EFFECT | PLAY_EFFECT | STOP_EFFECT | DESTROY_EFFECT
  | SET_AUTOCENTER | SET_GAIN | QUIT
  | CREATE_CONSTANT | CREATE_SINE | CREATE_TRIANGLE | CREATE_SAWTOOTHUP
  | CREATE_SAWTOOTHDOWN | CREATE_RAMP | CREATE_SPRING | CREATE_DAMPER
  | CREATE_INERTIA | CREATE_FRICTION
  | MODIFY_CONSTANT | MODIFY_SINE | MODIFY_TRIANGLE | MODIFY_SAWTOOTHUP
  | MODIFY_SAWTOOTHDOWN | MODIFY_RAMP | MODIFY_SPRING | MODIFY_DAMPER
  | MODIFY_INERTIA | MODIFY_FRICTION
  | TRY_AGAIN
deriving DecidableEq

/-! ## The device and the program state -/

/-- An operation issued to the haptic device. -/
inductive DeviceOp where
  | NewEffect (effect : SDL_HapticEffect)
  | UpdateEffect (id : Int) (effect : SDL_HapticEffect)
  | RunEffect (id : Int) (iterations : Int)
  | StopEffect (id : Int)
  | DestroyEffect (id : Int)
  | SetAutocenter (autocenter : Int)
  | SetGain (gain : Int)
deriving DecidableEq

/-- Everything the program touches besides the slot table.

* `stdin`: the unread input.
* `indeterminate k`: the value found in the uninitialised local `res` of the
  `get_int` call that starts reading at line `k` (used only when `sscanf`
  stores nothing).
* `registration k`: what the k-th call of `SDL_HapticNewEffect` returns;
  `registered` counts the calls made.
* `log`: the device operations issued, oldest first.
* `id`, `iterations`, `autocenter`, `gain`: the `static` locals of `get_id`,
  `play_effect`, `set_autocenter` and `set_gain`. -/
structure World where
  stdin : Stdin
  indeterminate : Nat → Int
  registration : Nat → Int
  registered : Nat
  log : List DeviceOp
  id : Int
  iterations : Int
  autocenter : Int
  gain : Int

/-- The state at program start: the statics hold their initialisers (source
lines 744, 840, 867, 875) and nothing has been sent to the device. -/
def World.start (lines : Nat → List Char) (indeterminate registration : Nat → Int) : World :=
  { stdin := { buf := [], lines := lines, next := 0 }
    indeterminate := indeterminate
    registration := registration
    registered := 0
    log := []
    id := 0
    iterations := 0
    autocenter := 0
    gain := 100 }

def SDL_HapticNewEffect (w : World) (effect : SDL_HapticEffect) : Int × World :=
  (w.registration w.registered,
   { w with registered := w.registered + 1, log := w.log ++ [DeviceOp.NewEffect effect] })

def SDL_HapticUpdateEffect (w : World) (id : Int) (effect : SDL_HapticEffect) : World :=
  { w with log := w.log ++ [DeviceOp.UpdateEffect id effect] }

def SDL_HapticRunEffect (w : World) (id : Int) (iterations : Int) : World :=
  { w with log := w.log ++ [DeviceOp.RunEffect id iterations] }

def SDL_HapticStopEffect (w : World) (id : Int) : World :=
  { w with log := w.log ++ [DeviceOp.StopEffect id] }

def SDL_HapticDestroyEffect (w : World) (id : Int) : World :=
  { w with log := w.log ++ [DeviceOp.DestroyEffect id] }

def SDL_HapticSetAutocenter (w : World) (autocenter : Int) : World :=
  { w with log := w.log ++ [DeviceOp.SetAutocenter autocenter] }

def SDL_HapticSetGain (w : World) (gain : Int) : World :=
  { w with log := w.log ++ [DeviceOp.SetGain gain] }

/-! ## Source lines 152-195: reading a choice and a bounded integer -/

/-- Source lines 152-169. -/
def get_choice (w : World) : choice × World :=
  let r := scanf_c w.stdin
  let w := { w with stdin := discard_line r.2 }
  let c := r.1
  if c = 'c' then (choice.CREATE_EFFECT, w)
  else if c = 'm' then (choice.MODIFY_EFFECT, w)
  else if c = 'p' then (choice.PLAY_EFFECT, w)
  else if c = 's' then (choice.STOP_EFFECT, w)
  else if c = 'd' then (choice.DESTROY_EFFECT, w)
  else if c = 'a' then (choice.SET_AUTOCENTER, w)
  else if c = 'g' then (choice.SET_GAIN, w)
  else if c = 'q' then (choice.QUIT, w)
  else (choice.TRY_AGAIN, w)

/-- The value `get_int` returns (source lines 176-194) once `fgets` has
stored `inb`: `junk` is what the uninitialised `res` holds, `min`, `max` and
`d` are the `long long` arguments. -/
def get_int_value (junk : Int) (inb : List Char) (min max d : Int) : Int :=
  let res : Int :=
    if inb.head? = some '\n' then toInt32 d
    else
      match sscanf_i inb with
      | some v => v
      | none => toInt32 junk
  let res : Int := if res < min then toInt32 min else res
  let res : Int := if res > max then toInt32 max else res
  res

/-- Source lines 171-195.  The prompt is printed only, so the format string
is left out. -/
def get_int (w : World) (min max d : Int) : Int × World :=
  let junk := w.indeterminate w.stdin.fill.next
  let r := fgets 80 w.stdin
  let inb := r.1
  let s := if inb.length ≥ 79 then discard_line r.2 else r.2
  (get_int_value junk inb min max d, { w with stdin := s })

/-! ## Source lines 197-602: editors and factories -/

/-- A member of the effect that the editors prompt for: how it is read and
how a value is stored in it (with the conversion to the member's C type). -/
structure Attr where
  get : SDL_HapticEffect → Int
  set : SDL_HapticEffect → Int → SDL_HapticEffect

/-- The member `type` (`Uint16`), under any of its names `effect->type`,
`effect->constant.type`, `effect->periodic.type`, `effect->condition.type`,
`effect->ramp.type`. -/
def attr_type : Attr :=
  ⟨fun e => e.type, fun e v => { e with type := toUint16 v }⟩

/-- The member `direction.type` (`Uint8`). -/
def attr_direction_type : Attr :=
  ⟨fun e => e.direction.type,
   fun e v => { e with direction := { e.direction with type := toUint8 v } }⟩

/-- The member `direction.dir[0]` (`Sint32`: an `int` is stored unchanged). -/
def attr_direction_dir0 : Attr :=
  ⟨fun e => e.direction.dir.i0,
   fun e v => { e with direction := { e.direction with dir := { e.direction.dir with i0 := toInt32 v } } }⟩

/-- The member `length` (`Uint32`). -/
def attr_length : Attr :=
  ⟨fun e => e.length, fun e v => { e with length := toUint32 v }⟩

/-- The member `delay` (`Uint16`). -/
def attr_delay : Attr :=
  ⟨fun e => e.delay, fun e v => { e with delay := toUint16 v }⟩

/-- The member `constant.level` (`Sint16`). -/
def attr_constant_level : Attr :=
  ⟨fun e => e.constant.level,
   fun e v => { e with constant := { e.constant with level := toSint16 v } }⟩

/-- The member `constant.attack_length` (`Uint16`). -/
def attr_constant_attack_length : Attr :=
  ⟨fun e => e.constant.attack_length,
   fun e v => { e with constant := { e.constant with attack_length := toUint16 v } }⟩

/-- The member `constant.attack_level` (`Uint16`). -/
def attr_constant_attack_level : Attr :=
  ⟨fun e => e.constant.attack_level,
   fun e v => { e with constant := { e.constant with attack_level := toUint16 v } }⟩

/-- The member `constant.fade_length` (`Uint16`). -/
def attr_constant_fade_length : Attr :=
  ⟨fun e => e.constant.fade_length,
   fun e v => { e with constant := { e.constant with fade_length := toUint16 v } }⟩

/-- The member `constant.fade_level` (`Uint16`). -/
def attr_constant_fade_level : Attr :=
  ⟨fun e => e.constant.fade_level,
   fun e v => { e with constant := { e.constant with fade_level := toUint16 v } }⟩

/-- The member `periodic.period` (`Uint16`). -/
def attr_periodic_period : Attr :=
  ⟨fun e => e.periodic.period,
   fun e v => { e with periodic := { e.periodic with period := toUint16 v } }⟩

/-- The member `periodic.magnitude` (`Sint16`). -/
def attr_periodic_magnitude : Attr :=
  ⟨fun e => e.periodic.magnitude,
   fun e v => { e with periodic := { e.periodic with magnitude := toSint16 v } }⟩

/-- The member `periodic.offset` (`Sint16`). -/
def attr_periodic_offset : Attr :=
  ⟨fun e => e.periodic.offset,
   fun e v => { e with periodic := { e.periodic with offset := toSint16 v } }⟩

/-- The member `periodic.phase` (`Uint16`). -/
def attr_periodic_phase : Attr :=
  ⟨fun e => e.periodic.phase,
   fun e v => { e with periodic := { e.periodic with phase := toUint16 v } }⟩

/-- The member `periodic.attack_length` (`Uint16`). -/
def attr_periodic_attack_length : Attr :=
  ⟨fun e => e.periodic.attack_length,
   fun e v => { e with periodic := { e.periodic with attack_length := toUint16 v } }⟩

/-- The member `periodic.attack_level` (`Uint16`). -/
def attr_periodic_attack_level : Attr :=
  ⟨fun e => e.periodic.attack_level,
   fun e v => { e with periodic := { e.periodic with attack_level := toUint16 v } }⟩

/-- The member `periodic.fade_length` (`Uint16`). -/
def attr_periodic_fade_length : Attr :=
  ⟨fun e => e.periodic.fade_length,
   fun e v => { e with periodic := { e.periodic with fade_length := toUint16 v } }⟩

/-- The member `periodic.fade_level` (`Uint16`). -/
def attr_periodic_fade_level : Attr :=
  ⟨fun e => e.periodic.fade_level,
   fun e v => { e with periodic := { e.periodic with fade_level := toUint16 v } }⟩

/-- The member `ramp.start` (`Sint16`). -/
def attr_ramp_start : Attr :=
  ⟨fun e => e.ramp.start,
   fun e v => { e with ramp := { e.ramp with start := toSint16 v } }⟩

/-- The member `ramp.end` (`Sint16`). -/
def attr_ramp_end_ : Attr :=
  ⟨fun e => e.ramp.end_,
   fun e v => { e with ramp := { e.ramp with end_ := toSint16 v } }⟩

/-- The member `ramp.attack_length` (`Uint16`). -/
def attr_ramp_attack_length : Attr :=
  ⟨fun e => e.ramp.attack_length,
   fun e v => { e with ramp := { e.ramp with attack_length := toUint16 v } }⟩

/-- The member `ramp.attack_level` (`Uint16`). -/
def attr_ramp_attack_level : Attr :=
  ⟨fun e => e.ramp.attack_level,
   fun e v => { e with ramp := { e.ramp with attack_level := toUint16 v } }⟩

/-- The member `ramp.fade_length` (`Uint16`). -/
def attr_ramp_fade_length : Attr :=
  ⟨fun e => e.ramp.fade_length,
   fun e v => { e with ramp := { e.ramp with fade_length := toUint16 v } }⟩

/-- The member `ramp.fade_level` (`Uint16`). -/
def attr_ramp_fade_level : Attr :=
  ⟨fun e => e.ramp.fade_level,
   fun e v => { e with ramp := { e.ramp with fade_level := toUint16 v } }⟩

/-- The member `condition.right_sat[0]` (`Uint16`). -/
def attr_condition_right_sat0 : Attr :=
  ⟨fun e => e.condition.right_sat.i0,
   fun e v => { e with condition := { e.condition with
     right_sat := { e.condition.right_sat with i0 := toUint16 v } } }⟩

/-- The member `condition.left_sat[0]` (`Uint16`). -/
def attr_condition_left_sat0 : Attr :=
  ⟨fun e => e.condition.left_sat.i0,
   fun e v => { e with condition := { e.condition with
     left_sat := { e.condition.left_sat with i0 := toUint16 v } } }⟩

/-- The member `condition.right_coeff[0]` (`Sint16`). -/
def attr_condition_right_coeff0 : Attr :=
  ⟨fun e => e.condition.right_coeff.i0,
   fun e v => { e with condition := { e.condition with
     right_coeff := { e.condition.right_coeff with i0 := toSint16 v } } }⟩

/-- The member `condition.left_coeff[0]` (`Sint16`). -/
def attr_condition_left_coeff0 : Attr :=
  ⟨fun e => e.condition.left_coeff.i0,
   fun e v => { e with condition := { e.condition with
     left_coeff := { e.condition.left_coeff with i0 := toSint16 v } } }⟩

/-- The member `condition.deadband[0]` (`Uint16`). -/
def attr_condition_deadband0 : Attr :=
  ⟨fun e => e.condition.deadband.i0,
   fun e v => { e with condition := { e.condition with
     deadband := { e.condition.deadband with i0 := toUint16 v } } }⟩

/-- The member `condition.center[0]` (`Sint16`). -/
def attr_condition_center0 : Attr :=
  ⟨fun e => e.condition.center.i0,
   fun e v => { e with condition := { e.condition with
     center := { e.condition.center with i0 := toSint16 v } } }⟩

/-- The member `condition.right_sat[1]` (`Uint16`). -/
def attr_condition_right_sat1 : Attr :=
  ⟨fun e => e.condition.right_sat.i1,
   fun e v => { e with condition := { e.condition with
     right_sat := { e.condition.right_sat with i1 := toUint16 v } } }⟩

/-- The member `condition.left_sat[1]` (`Uint16`). -/
def attr_condition_left_sat1 : Attr :=
  ⟨fun e => e.condition.left_sat.i1,
   fun e v => { e with condition := { e.condition with
     left_sat := { e.condition.left_sat with i1 := toUint16 v } } }⟩

/-- The member `condition.right_coeff[1]` (`Sint16`). -/
def attr_condition_right_coeff1 : Attr :=
  ⟨fun e => e.condition.right_coeff.i1,
   fun e v => { e with condition := { e.condition with
     right_coeff := { e.condition.right_coeff with i1 := toSint16 v } } }⟩

/-- The member `condition.left_coeff[1]` (`Sint16`). -/
def attr_condition_left_coeff1 : Attr :=
  ⟨fun e => e.condition.left_coeff.i1,
   fun e v => { e with condition := { e.condition with
     left_coeff := { e.condition.left_coeff with i1 := toSint16 v } } }⟩

/-- The member `condition.deadband[1]` (`Uint16`). -/
def attr_condition_deadband1 : Attr :=
  ⟨fun e => e.condition.deadband.i1,
   fun e v => { e with condition := { e.condition with
     deadband := { e.condition.deadband with i1 := toUint16 v } } }⟩

/-- The member `condition.center[1]` (`Sint16`). -/
def attr_condition_center1 : Attr :=
  ⟨fun e => e.condition.center.i1,
   fun e v => { e with condition := { e.condition with
     center := { e.condition.center with i1 := toSint16 v } } }⟩

/-- The member `condition.right_sat[2]` (`Uint16`). -/
def attr_condition_right_sat2 : Attr :=
  ⟨fun e => e.condition.right_sat.i2,
   fun e v => { e with condition := { e.condition with
     right_sat := { e.condition.right_sat with i2 := toUint16 v } } }⟩

/-- The member `condition.left_sat[2]` (`Uint16`). -/
def attr_condition_left_sat2 : Attr :=
  ⟨fun e => e.condition.left_sat.i2,
   fun e v => { e with condition := { e.condition with
     left_sat := { e.condition.left_sat with i2 := toUint16 v } } }⟩

/-- The member `condition.right_coeff[2]` (`Sint16`). -/
def attr_condition_right_coeff2 : Attr :=
  ⟨fun e => e.condition.right_coeff.i2,
   fun e v => { e with condition := { e.condition with
     right_coeff := { e.condition.right_coeff with i2 := toSint16 v } } }⟩

/-- The member `condition.left_coeff[2]` (`Sint16`). -/
def attr_condition_left_coeff2 : Attr :=
  ⟨fun e => e.condition.left_coeff.i2,
   fun e v => { e with condition := { e.condition with
     left_coeff := { e.condition.left_coeff with i2 := toSint16 v } } }⟩

/-- The member `condition.deadband[2]` (`Uint16`). -/
def attr_condition_deadband2 : Attr :=
  ⟨fun e => e.condition.deadband.i2,
   fun e v => { e with condition := { e.condition with
     deadband := { e.condition.deadband with i2 := toUint16 v } } }⟩

/-- The member `condition.center[2]` (`Sint16`). -/
def attr_condition_center2 : Attr :=
  ⟨fun e => e.condition.center.i2,
   fun e v => { e with condition := { e.condition with
     center := { e.condition.center with i2 := toSint16 v } } }⟩

/-- Source lines 197-198, the `FFB_ATTR(n, x, a, b)` line
`effect->n.x = get_int(..., a, b, effect->n.x)`: the member is the default
and receives the value read. -/
def FFB_ATTR (x : Attr) (a b : Int) (s : SDL_HapticEffect × World) : SDL_HapticEffect × World :=
  let r := get_int s.2 a b (x.get s.1)
  (x.set s.1 r.1, r.2)

/-- Source lines 228-239. -/
def get_condition_effect_input (w : World) (e : SDL_HapticEffect) : SDL_HapticEffect × World :=
  let s := FFB_ATTR attr_direction_dir0 0 36000 (e, w)
  let s := FFB_ATTR attr_length 0 UINT_MAX s
  let s := FFB_ATTR attr_delay 0 USHRT_MAX s
  let s := FFB_ATTR attr_condition_right_sat0 0 USHRT_MAX s
  let s := FFB_ATTR attr_condition_left_sat0 0 USHRT_MAX s
  let s := FFB_ATTR attr_condition_right_coeff0 0 USHRT_MAX s
  let s := FFB_ATTR attr_condition_left_coeff0 0 USHRT_MAX s
  let s := FFB_ATTR attr_condition_deadband0 0 USHRT_MAX s
  FFB_ATTR attr_condition_center0 SHRT_MIN SHRT_MAX s

/-- The assignments every condition factory makes before it calls the editor
(source lines 247-261, 285-299, 323-337, 361-375), for the type constant `t`. -/
def condition_defaults (t : Int) (e : SDL_HapticEffect) : SDL_HapticEffect :=
  let e := attr_type.set e t
  let e := attr_type.set e t
  let e := attr_direction_type.set e SDL_HAPTIC_CARTESIAN
  let e := attr_direction_dir0.set e 9000
  let e := attr_length.set e 2000
  let e := attr_delay.set e 0
  let e := attr_condition_right_sat0.set e 0
  let e := attr_condition_left_sat0.set e 0
  let e := attr_condition_right_coeff0.set e 0
  let e := attr_condition_left_coeff0.set e 0
  let e := attr_condition_deadband0.set e 0
  attr_condition_center0.set e 0

/-- The six `SET(x[2]) = SET(x[1]) = SET(x[0])` lines of every condition
factory (source lines 267-272, 305-310, 343-348, 381-386). -/
def condition_replicate (e : SDL_HapticEffect) : SDL_HapticEffect :=
  let e := attr_condition_right_sat1.set e (attr_condition_right_sat0.get e)
  let e := attr_condition_right_sat2.set e (attr_condition_right_sat1.get e)
  let e := attr_condition_left_sat1.set e (attr_condition_left_sat0.get e)
  let e := attr_condition_left_sat2.set e (attr_condition_left_sat1.get e)
  let e := attr_condition_right_coeff1.set e (attr_condition_right_coeff0.get e)
  let e := attr_condition_right_coeff2.set e (attr_condition_right_coeff1.get e)
  let e := attr_condition_left_coeff1.set e (attr_condition_left_coeff0.get e)
  let e := attr_condition_left_coeff2.set e (attr_condition_left_coeff1.get e)
  let e := attr_condition_deadband1.set e (attr_condition_deadband0.get e)
  let e := attr_condition_deadband2.set e (attr_condition_deadband1.get e)
  let e := attr_condition_center1.set e (attr_condition_center0.get e)
  attr_condition_center2.set e (attr_condition_center1.get e)

/-- Source lines 241-244. -/
def modify_inertia (w : World) (id : Int) (e : SDL_HapticEffect) : SDL_HapticEffect × World :=
  let r := get_condition_effect_input w e
  (r.1, SDL_HapticUpdateEffect r.2 id r.1)

/-- Source lines 246-277.  Returns the registration result, the effect as left
in the slot, and the state. -/
def create_inertia (w : World) (e : SDL_HapticEffect) : Int × SDL_HapticEffect × World :=
  let e := condition_defaults SDL_HAPTIC_INERTIA e
  let r := get_condition_effect_input w e
  let e := condition_replicate r.1
  let n := SDL_HapticNewEffect r.2 e
  (n.1, e, n.2)

/-- Source lines 279-282. -/
def modify_friction (w : World) (id : Int) (e : SDL_HapticEffect) : SDL_HapticEffect × World :=
  let r := get_condition_effect_input w e
  (r.1, SDL_HapticUpdateEffect r.2 id r.1)

/-- Source lines 284-315.  Returns the registration result, the effect as left
in the slot, and the state. -/
def create_friction (w : World) (e : SDL_HapticEffect) : Int × SDL_HapticEffect × World :=
  let e := condition_defaults SDL_HAPTIC_FRICTION e
  let r := get_condition_effect_input w e
  let e := condition_replicate r.1
  let n := SDL_HapticNewEffect r.2 e
  (n.1, e, n.2)

/-- Source lines 317-320. -/
def modify_damper (w : World) (id : Int) (e : SDL_HapticEffect) : SDL_HapticEffect × World :=
  let r := get_condition_effect_input w e
  (r.1, SDL_HapticUpdateEffect r.2 id r.1)

/-- Source lines 322-353.  Returns the registration result, the effect as left
in the slot, and the state. -/
def create_damper (w : World) (e : SDL_HapticEffect) : Int × SDL_HapticEffect × World :=
  let e := condition_defaults SDL_HAPTIC_DAMPER e
  let r := get_condition_effect_input w e
  let e := condition_replicate r.1
  let n := SDL_HapticNewEffect r.2 e
  (n.1, e, n.2)

/-- Source lines 355-358. -/
def modify_spring (w : World) (id : Int) (e : SDL_HapticEffect) : SDL_HapticEffect × World :=
  let r := get_condition_effect_input w e
  (r.1, SDL_HapticUpdateEffect r.2 id r.1)

/-- Source lines 360-391.  Returns the registration result, the effect as left
in the slot, and the state. -/
def create_spring (w : World) (e : SDL_HapticEffect) : Int × SDL_HapticEffect × World :=
  let e := condition_defaults SDL_HAPTIC_SPRING e
  let r := get_condition_effect_input w e
  let e := condition_replicate r.1
  let n := SDL_HapticNewEffect r.2 e
  (n.1, e, n.2)

/-- Source lines 393-405. -/
def get_ramp_effect_input (w : World) (e : SDL_HapticEffect) : SDL_HapticEffect × World :=
  let s := FFB_ATTR attr_direction_dir0 0 36000 (e, w)
  let s := FFB_ATTR attr_length 0 UINT_MAX s
  let s := FFB_ATTR attr_delay 0 USHRT_MAX s
  let s := FFB_ATTR attr_ramp_start 0 USHRT_MAX s
  let s := FFB_ATTR attr_ramp_end_ 0 USHRT_MAX s
  let s := FFB_ATTR attr_ramp_attack_length 0 USHRT_MAX s
  let s := FFB_ATTR attr_ramp_attack_level 0 USHRT_MAX s
  let s := FFB_ATTR attr_ramp_fade_length 0 USHRT_MAX s
  FFB_ATTR attr_ramp_fade_level 0 USHRT_MAX s

/-- Source lines 407-410. -/
def modify_ramp (w : World) (id : Int) (e : SDL_HapticEffect) : SDL_HapticEffect × World :=
  let r := get_ramp_effect_input w e
  (r.1, SDL_HapticUpdateEffect r.2 id r.1)

/-- Source lines 412-432.  Line 414 stores `SDL_HAPTIC_TRIANGLE` in
`effect->ramp.type`, the same object as `effect->type`. -/
def create_ramp (w : World) (e : SDL_HapticEffect) : Int × SDL_HapticEffect × World :=
  let e := attr_type.set e SDL_HAPTIC_RAMP
  let e := attr_type.set e SDL_HAPTIC_TRIANGLE
  let e := attr_direction_type.set e SDL_HAPTIC_CARTESIAN
  let e := attr_direction_dir0.set e 9000
  let e := attr_length.set e 2000
  let e := attr_delay.set e 0
  let e := attr_ramp_start.set e 0
  let e := attr_ramp_end_.set e 65535
  let e := attr_ramp_attack_length.set e 0
  let e := attr_ramp_attack_level.set e 0
  let e := attr_ramp_fade_length.set e 0
  let e := attr_ramp_fade_level.set e 0
  let r := get_ramp_effect_input w e
  let n := SDL_HapticNewEffect r.2 r.1
  (n.1, r.1, n.2)

/-- Source lines 434-448. -/
def get_periodic_effect_input (w : World) (e : SDL_HapticEffect) : SDL_HapticEffect × World :=
  let s := FFB_ATTR attr_direction_dir0 0 36000 (e, w)
  let s := FFB_ATTR attr_length 0 UINT_MAX s
  let s := FFB_ATTR attr_delay 0 USHRT_MAX s
  let s := FFB_ATTR attr_periodic_period 0 USHRT_MAX s
  let s := FFB_ATTR attr_periodic_magnitude 0 USHRT_MAX s
  let s := FFB_ATTR attr_periodic_offset 0 USHRT_MAX s
  let s := FFB_ATTR attr_periodic_phase 0 USHRT_MAX s
  let s := FFB_ATTR attr_periodic_attack_length 0 USHRT_MAX s
  let s := FFB_ATTR attr_periodic_attack_level 0 USHRT_MAX s
  let s := FFB_ATTR attr_periodic_fade_length 0 USHRT_MAX s
  FFB_ATTR attr_periodic_fade_level 0 USHRT_MAX s

/-- The assignments every periodic factory makes before it calls the editor
(source lines 456-472, 485-501, 514-530, 543-559), for the type constant `t`. -/
def periodic_defaults (t : Int) (e : SDL_HapticEffect) : SDL_HapticEffect :=
  let e := attr_type.set e t
  let e := attr_type.set e t
  let e := attr_direction_type.set e SDL_HAPTIC_CARTESIAN
  let e := attr_direction_dir0.set e 9000
  let e := attr_length.set e 2000
  let e := attr_delay.set e 0
  let e := attr_periodic_period.set e 2000
  let e := attr_periodic_magnitude.set e 65535
  let e := attr_periodic_offset.set e 0
  let e := attr_periodic_phase.set e 0
  let e := attr_periodic_attack_length.set e 0
  let e := attr_periodic_attack_level.set e 0
  let e := attr_periodic_fade_length.set e 0
  attr_periodic_fade_level.set e 0

/-- Source lines 450-453. -/
def modify_triangle (w : World) (id : Int) (e : SDL_HapticEffect) : SDL_HapticEffect × World :=
  let r := get_periodic_effect_input w e
  (r.1, SDL_HapticUpdateEffect r.2 id r.1)

/-- Source lines 455-477. -/
def create_triangle (w : World) (e : SDL_HapticEffect) : Int × SDL_HapticEffect × World :=
  let e := periodic_defaults SDL_HAPTIC_TRIANGLE e
  let r := get_periodic_effect_input w e
  let n := SDL_HapticNewEffect r.2 r.1
  (n.1, r.1, n.2)

/-- Source lines 479-482. -/
def modify_sawtoothdown (w : World) (id : Int) (e : SDL_HapticEffect) : SDL_HapticEffect × World :=
  let r := get_periodic_effect_input w e
  (r.1, SDL_HapticUpdateEffect r.2 id r.1)

/-- Source lines 484-506. -/
def create_sawtoothdown (w : World) (e : SDL_HapticEffect) : Int × SDL_HapticEffect × World :=
  let e := periodic_defaults SDL_HAPTIC_SAWTOOTHDOWN e
  let r := get_periodic_effect_input w e
  let n := SDL_HapticNewEffect r.2 r.1
  (n.1, r.1, n.2)

/-- Source lines 508-511. -/
def modify_sawtoothup (w : World) (id : Int) (e : SDL_HapticEffect) : SDL_HapticEffect × World :=
  let r := get_periodic_effect_input w e
  (r.1, SDL_HapticUpdateEffect r.2 id r.1)

/-- Source lines 513-535. -/
def create_sawtoothup (w : World) (e : SDL_HapticEffect) : Int × SDL_HapticEffect × World :=
  let e := periodic_defaults SDL_HAPTIC_SAWTOOTHUP e
  let r := get_periodic_effect_input w e
  let n := SDL_HapticNewEffect r.2 r.1
  (n.1, r.1, n.2)

/-- Source lines 537-540. -/
def modify_sine (w : World) (id : Int) (e : SDL_HapticEffect) : SDL_HapticEffect × World :=
  let r := get_periodic_effect_input w e
  (r.1, SDL_HapticUpdateEffect r.2 id r.1)

/-- Source lines 542-564. -/
def create_sine (w : World) (e : SDL_HapticEffect) : Int × SDL_HapticEffect × World :=
  let e := periodic_defaults SDL_HAPTIC_SINE e
  let r := get_periodic_effect_input w e
  let n := SDL_HapticNewEffect r.2 r.1
  (n.1, r.1, n.2)

/-- Source lines 566-577. -/
def get_constant_effect_input (w : World) (e : SDL_HapticEffect) : SDL_HapticEffect × World :=
  let s := FFB_ATTR attr_direction_dir0 0 36000 (e, w)
  let s := FFB_ATTR attr_length 0 UINT_MAX s
  let s := FFB_ATTR attr_delay 0 USHRT_MAX s
  let s := FFB_ATTR attr_constant_level 0 USHRT_MAX s
  let s := FFB_ATTR attr_constant_attack_length 0 USHRT_MAX s
  let s := FFB_ATTR attr_constant_attack_level 0 USHRT_MAX s
  let s := FFB_ATTR attr_constant_fade_length 0 USHRT_MAX s
  FFB_ATTR attr_constant_fade_level 0 USHRT_MAX s

/-- Source lines 579-582. -/
def modify_constant (w : World) (id : Int) (e : SDL_HapticEffect) : SDL_HapticEffect × World :=
  let r := get_constant_effect_input w e
  (r.1, SDL_HapticUpdateEffect r.2 id r.1)

/-- Source lines 584-602. -/
def create_constant (w : World) (e : SDL_HapticEffect) : Int × SDL_HapticEffect × World :=
  let e := attr_type.set e SDL_HAPTIC_CONSTANT
  let e := attr_type.set e SDL_HAPTIC_CONSTANT
  let e := attr_direction_type.set e SDL_HAPTIC_CARTESIAN
  let e := attr_direction_dir0.set e 9000
  let e := attr_length.set e 2000
  let e := attr_delay.set e 0
  let e := attr_constant_level.set e 32767
  let e := attr_constant_attack_length.set e 0
  let e := attr_constant_attack_level.set e 0
  let e := attr_constant_fade_length.set e 0
  let e := attr_constant_fade_level.set e 0
  let r := get_constant_effect_input w e
  let n := SDL_HapticNewEffect r.2 r.1
  (n.1, r.1, n.2)

/-! ## Source lines 631-880: the slot table and the handlers

The table `elems[]` is a list and `num_elems` its length (as in `run`, lines
916-918).  A handler that would write through a null pointer or past the end
of the table has no defined result: `none`. -/

/-- Source lines 631-662. -/
def get_create_effect_choice (w : World) : choice × World :=
  let r := scanf_c w.stdin
  let w := { w with stdin := discard_line r.2 }
  let option := r.1
  if option = 'c' then (choice.CREATE_CONSTANT, w)
  else if option = 's' then (choice.CREATE_SINE, w)
  else if option = 't' then (choice.CREATE_TRIANGLE, w)
  else if option = 'u' then (choice.CREATE_SAWTOOTHUP, w)
  else if option = 'd' then (choice.CREATE_SAWTOOTHDOWN, w)
  else if option = 'r' then (choice.CREATE_RAMP, w)
  else if option = 'S' then (choice.CREATE_SPRING, w)
  else if option = 'D' then (choice.CREATE_DAMPER, w)
  else if option = 'i' then (choice.CREATE_INERTIA, w)
  else if option = 'f' then (choice.CREATE_FRICTION, w)
  else (choice.TRY_AGAIN, w)

/-- The loop of source lines 665-671: the index of the first slot that is not
active, `none` when every slot is active (`elem` stays null). -/
def first_inactive : List haptic_elem → Option Nat
  | [] => none
  | e :: es => if !e.active then some 0 else (first_inactive es).map (fun i => i + 1)

/-- The `switch` of source lines 676-716: the factory for a choice; any
other choice leaves `id = 0` and the effect untouched. -/
def create_dispatch (c : choice) (w : World) (e : SDL_HapticEffect) :
    Int × SDL_HapticEffect × World :=
  match c with
  | choice.CREATE_CONSTANT => create_constant w e
  | choice.CREATE_SINE => create_sine w e
  | choice.CREATE_TRIANGLE => create_triangle w e
  | choice.CREATE_SAWTOOTHUP => create_sawtoothup w e
  | choice.CREATE_SAWTOOTHDOWN => create_sawtoothdown w e
  | choice.CREATE_RAMP => create_ramp w e
  | choice.CREATE_SPRING => create_spring w e
  | choice.CREATE_DAMPER => create_damper w e
  | choice.CREATE_INERTIA => create_inertia w e
  | choice.CREATE_FRICTION => create_friction w e
  | _ => (0, e, w)

/-- Source lines 664-725. -/
def run_create_effect_choice (w : World) (elems : List haptic_elem) (c : choice) :
    Option (World × List haptic_elem) :=
  match first_inactive elems with
  | none => none
  | some i =>
    match elems[i]? with
    | none => none
    | some elem =>
      let r := create_dispatch c w elem.effect
      let id := r.1
      let elem := { elem with effect := r.2.1 }
      let elem := if id < 0 then { elem with active := false }
                  else { elem with id := id, active := true }
      some (r.2.2, elems.set i elem)

/-- Source lines 743-756. -/
def get_id (w : World) (elems : List haptic_elem) : Int × World :=
  let r := get_int w 0 elems.length w.id
  let id := r.1
  let w := { r.2 with id := id }
  if elems.any (fun e => e.active && decide (e.id = id)) then (id, w) else (-1, w)

/-- Source lines 758-777. -/
def get_modify_choice (t : Int) : choice :=
  if t = SDL_HAPTIC_CONSTANT then choice.MODIFY_CONSTANT
  else if t = SDL_HAPTIC_SINE then choice.MODIFY_SINE
  else if t = SDL_HAPTIC_TRIANGLE then choice.MODIFY_TRIANGLE
  else if t = SDL_HAPTIC_SAWTOOTHUP then choice.MODIFY_SAWTOOTHUP
  else if t = SDL_HAPTIC_SAWTOOTHDOWN then choice.MODIFY_SAWTOOTHDOWN
  else if t = SDL_HAPTIC_RAMP then choice.MODIFY_RAMP
  else if t = SDL_HAPTIC_SPRING then choice.MODIFY_SPRING
  else if t = SDL_HAPTIC_DAMPER then choice.MODIFY_DAMPER
  else if t = SDL_HAPTIC_INERTIA then choice.MODIFY_INERTIA
  else if t = SDL_HAPTIC_FRICTION then choice.MODIFY_FRICTION
  else choice.TRY_AGAIN

/-- The `switch` of source lines 791-831. -/
def modify_dispatch (c : choice) (w : World) (id : Int) (e : SDL_HapticEffect) :
    SDL_HapticEffect × World :=
  match c with
  | choice.MODIFY_CONSTANT => modify_constant w id e
  | choice.MODIFY_SINE => modify_sine w id e
  | choice.MODIFY_TRIANGLE => modify_triangle w id e
  | choice.MODIFY_SAWTOOTHUP => modify_sawtoothup w id e
  | choice.MODIFY_SAWTOOTHDOWN => modify_sawtoothdown w id e
  | choice.MODIFY_RAMP => modify_ramp w id e
  | choice.MODIFY_SPRING => modify_spring w id e
  | choice.MODIFY_DAMPER => modify_damper w id e
  | choice.MODIFY_INERTIA => modify_inertia w id e
  | choice.MODIFY_FRICTION => modify_friction w id e
  | _ => (e, w)

/-- Source lines 779-832.  `elems[id]` is the slot at index `id`. -/
def modify_effect (w : World) (elems : List haptic_elem) : Option (World × List haptic_elem) :=
  let g := get_id w elems
  let id := g.1
  if id < 0 then some (g.2, elems)
  else
    match elems[id.toNat]? with
    | none => none
    | some elem =>
      let c := get_modify_choice elem.effect.type
      let r := modify_dispatch c g.2 id elem.effect
      some (r.2, elems.set id.toNat { elem with effect := r.1 })

/-- Source lines 834-845. -/
def play_effect (w : World) (elems : List haptic_elem) : World :=
  let g := get_id w elems
  let id := g.1
  if id < 0 then g.2
  else
    let r := get_int g.2 0 UINT_MAX g.2.iterations
    let w := { r.2 with iterations := toUint32 r.1 }
    SDL_HapticRunEffect w id w.iterations

/-- Source lines 847-854. -/
def stop_effect (w : World) (elems : List haptic_elem) : World :=
  let g := get_id w elems
  let id := g.1
  if id < 0 then g.2
  else SDL_HapticStopEffect g.2 id

/-- Source lines 856-864.  `elems[id]` is the slot at index `id`. -/
def destroy_effect (w : World) (elems : List haptic_elem) : Option (World × List haptic_elem) :=
  let g := get_id w elems
  let id := g.1
  if id < 0 then some (g.2, elems)
  else
    let w := SDL_HapticDestroyEffect g.2 id
    match elems[id.toNat]? with
    | none => none
    | some elem => some (w, elems.set id.toNat { elem with active := false })

/-- Source lines 866-872. -/
def set_autocenter (w : World) : World :=
  let r := get_int w 0 100 w.autocenter
  let w := { r.2 with autocenter := r.1 }
  SDL_HapticSetAutocenter w w.autocenter

/-- Source lines 874-880. -/
def set_gain (w : World) : World :=
  let r := get_int w 0 100 w.gain
  let w := { r.2 with gain := r.1 }
  SDL_HapticSetGain w w.gain

/-- An effect record with every member zero. -/
def zero_effect : SDL_HapticEffect :=
  ⟨0, ⟨0, ⟨0, 0, 0⟩⟩, 0, 0, 0, 0, ⟨0, 0, 0, 0, 0⟩, ⟨0, 0, 0, 0, 0, 0, 0, 0⟩,
   ⟨⟨0, 0, 0⟩, ⟨0, 0, 0⟩, ⟨0, 0, 0⟩, ⟨0, 0, 0⟩, ⟨0, 0, 0⟩, ⟨0, 0, 0⟩⟩, ⟨0, 0, 0, 0, 0, 0⟩⟩

/-- The slot table as `run` allocates it (source line 918): `calloc` gives
`num_elems` zeroed, hence inactive, slots. -/
def calloc (num_elems : Nat) : List haptic_elem :=
  List.replicate num_elems ⟨zero_effect, 0, false⟩

/-- The ten effect creation choices (source lines 21-31). -/
def creation_choices : List choice :=
  [choice.CREATE_CONSTANT, choice.CREATE_SINE, choice.CREATE_TRIANGLE, choice.CREATE_SAWTOOTHUP,
   choice.CREATE_SAWTOOTHDOWN, choice.CREATE_RAMP, choice.CREATE_SPRING, choice.CREATE_DAMPER,
   choice.CREATE_INERTIA, choice.CREATE_FRICTION]

/-! ## Source lines 727-741 and 882-942: the menu

A loop that reads until a character is recognised need not end, so each loop
takes a bound `fuel` on the reads it may make and gives `none` when the bound
is used up.  The argument `supported_effects` only selects what is printed
and is left out. -/

/-- Source lines 727-741. -/
def create_effect : Nat → World → List haptic_elem → Option (World × List haptic_elem)
  | 0, _, _ => none
  | fuel + 1, w, elems =>
    let r := get_create_effect_choice w
    if r.1 ≠ choice.TRY_AGAIN then run_create_effect_choice r.2 elems r.1
    else create_effect fuel r.2 elems

/-- Source lines 882-912: a choice with no `case` does nothing. -/
def run_choice (fuel : Nat) (w : World) (elems : List haptic_elem) (c : choice) :
    Option (World × List haptic_elem) :=
  match c with
  | choice.CREATE_EFFECT => create_effect fuel w elems
  | choice.MODIFY_EFFECT => modify_effect w elems
  | choice.PLAY_EFFECT => some (play_effect w elems, elems)
  | choice.STOP_EFFECT => some (stop_effect w elems, elems)
  | choice.DESTROY_EFFECT => destroy_effect w elems
  | choice.SET_AUTOCENTER => some (set_autocenter w, elems)
  | choice.SET_GAIN => some (set_gain w, elems)
  | _ => some (w, elems)

/-- Source lines 924-932, the inner loop of `run`: read a choice until it is
not `TRY_AGAIN`. -/
def read_choice : Nat → World → Option (choice × World)
  | 0, _ => none
  | fuel + 1, w =>
    let r := get_choice w
    if r.1 ≠ choice.TRY_AGAIN then some r else read_choice fuel r.2

/-- The state after `k` calls of `get_choice`. -/
def after_reads : Nat → World → World
  | 0, w => w
  | k + 1, w => after_reads k (get_choice w).2

/-- Source lines 919-939, the `do ... while(should_run)` loop of `run`.
Besides the final state and table the result lists the choices handed to
`run_choice`, oldest first. -/
def run_loop : Nat → World → List haptic_elem → Option (World × List haptic_elem × List choice)
  | 0, _, _ => none
  | fuel + 1, w, elems =>
    match read_choice (fuel + 1) w with
    | none => none
    | some (c, w1) =>
      if c = choice.QUIT then some (w1, elems, [])
      else
        match run_choice (fuel + 1) w1 elems c with
        | none => none
        | some (w2, elems2) =>
          match run_loop fuel w2 elems2 with
          | none => none
          | some r => some (r.1, r.2.1, c :: r.2.2)

/-- Source lines 914-942; `num_elems` is what `SDL_HapticNumEffects` returned. -/
def run (fuel : Nat) (w : World) (num_elems : Nat) :
    Option (World × List haptic_elem × List choice) :=
  run_loop fuel w (calloc num_elems)

/-- Every active slot holds, as its identifier, its own index in the table. -/
def ids_are_indices (elems : List haptic_elem) : Prop :=
  ∀ (j : Nat) (s : haptic_elem), elems[j]? = some s → s.active = true → s.id = (j : Int)

/-- How the device numbers effects.  `SDL_HapticNewEffect` puts the effect in
the device's first free effect slot and answers that slot's index, or answers
a negative value.  The device has `num_elems` effect slots, taken by the
program's successful creations and freed by its destroys only, so its first
free slot is the first inactive slot of the table: the next registration
answers a negative value or that index.  (The handlers rely on it: they use
the identifier `get_id` returns as the table index, source lines 786 and
863.) -/
def device_numbers_by_slot (w : World) (elems : List haptic_elem) : Prop :=
  w.registration w.registered < 0 ∨
  (0 ≤ w.registration w.registered ∧
    first_inactive elems = some (w.registration w.registered).toNat)

/-- The slot tables the program can hold: the table `run` allocates, and the
table any handler leaves (source lines 882-912) when started on such a table
with a device that numbers effects by slot. -/
inductive reachable_table : List haptic_elem → Prop where
  | allocated (num_elems : Nat) : reachable_table (calloc num_elems)
  | handled (fuel : Nat) (w : World) (elems : List haptic_elem) (c : choice)
      (elems' : List haptic_elem) :
      reachable_table elems → device_numbers_by_slot w elems →
      (run_choice fuel w elems c).map (fun r => r.2) = some elems' →
      reachable_table elems'

/-- The per-axis members of a condition effect. -/
def condition_members : List (SDL_HapticCondition → Arr3) :=
  [SDL_HapticCondition.right_sat, SDL_HapticCondition.left_sat,
   SDL_HapticCondition.right_coeff, SDL_HapticCondition.left_coeff,
   SDL_HapticCondition.deadband, SDL_HapticCondition.center]

/-- What a condition `modify_*` leaves alone in going from `e` to `r`: the
common members other than `direction.dir[0]`, `length` and `delay`, and the
axis-1 and axis-2 entries of every per-axis member; hence an axis-0 entry
that changes, where the three axes agreed, no longer equals the other two. -/
def condition_modify_frame (e r : SDL_HapticEffect) : Prop :=
  r.type = e.type ∧ r.direction.type = e.direction.type ∧
  r.direction.dir.i1 = e.direction.dir.i1 ∧ r.direction.dir.i2 = e.direction.dir.i2 ∧
  r.button = e.button ∧ r.interval = e.interval ∧
  ∀ f ∈ condition_members,
    (f r.condition).i1 = (f e.condition).i1 ∧ (f r.condition).i2 = (f e.condition).i2 ∧
    ((f e.condition).i1 = (f e.condition).i0 → (f e.condition).i2 = (f e.condition).i0 →
      (f r.condition).i0 ≠ (f e.condition).i0 →
      (f r.condition).i0 ≠ (f r.condition).i1 ∧ (f r.condition).i0 ≠ (f r.condition).i2 ∧
      (f r.condition).i1 = (f r.condition).i2)

/-- The decimal text of a natural number, without leading zeros. -/
def decimal_nat (n : Nat) : List Char :=
  if n = 0 then ['0'] else (Nat.digits 10 n).reverse.map (fun d => Char.ofNat (48 + d))

/-- The decimal text of an integer as it is typed at a prompt: a minus sign
for a negative number, then the digits. -/
def decimal (v : Int) : List Char :=
  if v < 0 then '-' :: decimal_nat v.natAbs else decimal_nat v.natAbs

/-- The values the `static` variable `iterations` of `play_effect` can hold:
its initialiser 0, and what a call of `play_effect` leaves in it when it
held such a value before. -/
inductive remembered_iterations : Int → Prop where
  | initially : remembered_iterations 0
  | played (w : World) (elems : List haptic_elem) :
      remembered_iterations w.iterations → remembered_iterations (play_effect w elems).iterations

/-- The next `n` prompts each find an empty line. -/
def blank_lines : Nat → Stdin → Bool
  | 0, _ => true
  | n + 1, s => decide (s.line = []) && blank_lines n (fgets 80 s).2

/-- What `get_int` returns on an empty line: the default, narrowed to `int`
and clamped (the uninitialised `res` plays no part). -/
def blank_value (min max d : Int) : Int :=
  get_int_value 0 ['\n'] min max d

/-- The effect after one `FFB_ATTR` prompt answered with an empty line. -/
def blank_edit (e : SDL_HapticEffect) (p : Attr × Int × Int) : SDL_HapticEffect :=
  p.1.set e (blank_value p.2.1 p.2.2 (p.1.get e))

/-- A run of `FFB_ATTR` prompts, one per entry (member, lower bound, upper bound). -/
def edit_all (ps : List (Attr × Int × Int)) (s : SDL_HapticEffect × World) :
    SDL_HapticEffect × World :=
  ps.foldl (fun s p => FFB_ATTR p.1 p.2.1 p.2.2 s) s

/-- The prompts of `get_constant_effect_input`, in order. -/
def constant_prompts : List (Attr × Int × Int) :=
  [(attr_direction_dir0, 0, 36000), (attr_length, 0, UINT_MAX), (attr_delay, 0, USHRT_MAX),
   (attr_constant_level, 0, USHRT_MAX), (attr_constant_attack_length, 0, USHRT_MAX),
   (attr_constant_attack_level, 0, USHRT_MAX), (attr_constant_fade_length, 0, USHRT_MAX),
   (attr_constant_fade_level, 0, USHRT_MAX)]

/-- The prompts of `get_periodic_effect_input`, in order. -/
def periodic_prompts : List (Attr × Int × Int) :=
  [(attr_direction_dir0, 0, 36000), (attr_length, 0, UINT_MAX), (attr_delay, 0, USHRT_MAX),
   (attr_periodic_period, 0, USHRT_MAX), (attr_periodic_magnitude, 0, USHRT_MAX),
   (attr_periodic_offset, 0, USHRT_MAX), (attr_periodic_phase, 0, USHRT_MAX),
   (attr_periodic_attack_length, 0, USHRT_MAX), (attr_periodic_attack_level, 0, USHRT_MAX),
   (attr_periodic_fade_length, 0, USHRT_MAX), (attr_periodic_fade_level, 0, USHRT_MAX)]

/-- The prompts of `get_ramp_effect_input`, in order. -/
def ramp_prompts : List (Attr × Int × Int) :=
  [(attr_direction_dir0, 0, 36000), (attr_length, 0, UINT_MAX), (attr_delay, 0, USHRT_MAX),
   (attr_ramp_start, 0, USHRT_MAX), (attr_ramp_end_, 0, USHRT_MAX),
   (attr_ramp_attack_length, 0, USHRT_MAX), (attr_ramp_attack_level, 0, USHRT_MAX),
   (attr_ramp_fade_length, 0, USHRT_MAX), (attr_ramp_fade_level, 0, USHRT_MAX)]

/-- The prompts of `get_condition_effect_input`, in order. -/
def condition_prompts : List (Attr × Int × Int) :=
  [(attr_direction_dir0, 0, 36000), (attr_length, 0, UINT_MAX), (attr_delay, 0, USHRT_MAX),
   (attr_condition_right_sat0, 0, USHRT_MAX), (attr_condition_left_sat0, 0, USHRT_MAX),
   (attr_condition_right_coeff0, 0, USHRT_MAX), (attr_condition_left_coeff0, 0, USHRT_MAX),
   (attr_condition_deadband0, 0, USHRT_MAX), (attr_condition_center0, SHRT_MIN, SHRT_MAX)]

/-- The three entries of `a` all equal `v`. -/
def axis_all (a : Arr3) (v : Int) : Prop :=
  a.i0 = v ∧ a.i1 = v ∧ a.i2 = v

/-- Each per-axis member of the condition `c` holds on axes 0, 1 and 2 the
axis-0 value that member has in `ed`. -/
def axes_replicated (c ed : SDL_HapticCondition) : Prop :=
  axis_all c.right_sat ed.right_sat.i0 ∧ axis_all c.left_sat ed.left_sat.i0 ∧
  axis_all c.right_coeff ed.right_coeff.i0 ∧ axis_all c.left_coeff ed.left_coeff.i0 ∧
  axis_all c.deadband ed.deadband.i0 ∧ axis_all c.center ed.center.i0

/-- The state `w'` differs from `w` in the unread input at most. -/
def input_only (w w' : World) : Prop :=
  w'.indeterminate = w.indeterminate ∧ w'.registration = w.registration ∧
  w'.registered = w.registered ∧ w'.log = w.log ∧ w'.id = w.id ∧
  w'.iterations = w.iterations ∧ w'.autocenter = w.autocenter ∧ w'.gain = w.gain

/-! ## Properties: integer conversions and the line reader -/

theorem toInt32_range (v : Int) : INT_MIN ≤ toInt32 v ∧ toInt32 v ≤ INT_MAX := by
  unfold toInt32 INT_MIN INT_MAX
  omega

theorem toInt32_of_range (v : Int) (h1 : INT_MIN ≤ v) (h2 : v ≤ INT_MAX) : toInt32 v = v := by
  unfold toInt32
  unfold INT_MIN at h1
  unfold INT_MAX at h2
  omega

theorem sscanf_i_range (s : List Char) (v : Int) (h : sscanf_i s = some v) :
    INT_MIN ≤ v ∧ v ≤ INT_MAX := by
  unfold sscanf_i at h
  simp only at h
  split at h
  · exact absurd h (by simp)
  · simp only [Option.some.injEq] at h
    rw [← h]
    exact toInt32_range _

/-- Before the two clamping steps `res` is an `int`, whatever was typed. -/
theorem get_int_value_cases (junk : Int) (inb : List Char) (min max d : Int) :
    ∃ res : Int, INT_MIN ≤ res ∧ res ≤ INT_MAX ∧
      get_int_value junk inb min max d =
        (if (if res < min then toInt32 min else res) > max then toInt32 max
         else (if res < min then toInt32 min else res)) := by
  unfold get_int_value
  by_cases h : inb.head? = some '\n'
  · exact ⟨toInt32 d, (toInt32_range d).1, (toInt32_range d).2, by simp [h]⟩
  · cases hs : sscanf_i inb with
    | none => exact ⟨toInt32 junk, (toInt32_range junk).1, (toInt32_range junk).2, by simp [h, hs]⟩
    | some v =>
      exact ⟨v, (sscanf_i_range inb v hs).1, (sscanf_i_range inb v hs).2, by simp [h, hs]⟩

theorem get_int_value_bounds (junk : Int) (inb : List Char) (min max d : Int)
    (hmm : min ≤ max) (hlo : INT_MIN ≤ min) (hhi : min ≤ INT_MAX) :
    min ≤ get_int_value junk inb min max d ∧ get_int_value junk inb min max d ≤ max := by
  obtain ⟨res, h1, h2, h3⟩ := get_int_value_cases junk inb min max d
  rw [h3]
  have hmin : toInt32 min = min := toInt32_of_range min hlo hhi
  rw [hmin]
  by_cases hlt : res < min
  · simp only [hlt, if_true]
    have : ¬ (min > max) := by omega
    simp only [this, if_false]
    omega
  · simp only [hlt, if_false]
    by_cases hgt : res > max
    · simp only [hgt, if_true]
      have hmax : toInt32 max = max := by
        apply toInt32_of_range <;> omega
      rw [hmax]
      omega
    · simp only [hgt, if_false]
      omega

/-- The result of `get_int` is an `int`. -/
theorem get_int_value_int (junk : Int) (inb : List Char) (min max d : Int) :
    INT_MIN ≤ get_int_value junk inb min max d ∧ get_int_value junk inb min max d ≤ INT_MAX := by
  obtain ⟨res, h1, h2, h3⟩ := get_int_value_cases junk inb min max d
  rw [h3]
  have a := toInt32_range min
  have b := toInt32_range max
  by_cases hlt : res < min
  · simp only [hlt, if_true]
    split
    · exact b
    · exact a
  · simp only [hlt, if_false]
    split
    · exact b
    · exact ⟨h1, h2⟩

theorem fill_mem (s : Stdin) : '\n' ∈ s.fill.buf := by
  unfold Stdin.fill
  split
  · assumption
  · simp

theorem takeLine_eq (cs : List Char) (h : '\n' ∈ cs) (n : Nat) :
    takeLine n cs = (cs.takeWhile (fun c => c != '\n') ++ ['\n']).take n := by
  induction cs generalizing n with
  | nil => simp at h
  | cons c cs ih =>
    cases n with
    | zero => simp [takeLine]
    | succ n =>
      by_cases hc : c = '\n'
      · subst hc
        simp [takeLine]
      · have hm : '\n' ∈ cs := by
          rcases List.mem_cons.mp h with h | h
          · exact absurd h.symm hc
          · exact h
        simp [takeLine, hc, ih hm n]

/-- What `fgets(in, 80, stdin)` stores: the line and its newline, cut at 79
characters. -/
theorem fgets_fst (s : Stdin) : (fgets 80 s).1 = (s.line ++ ['\n']).take 79 := by
  unfold fgets Stdin.line
  exact takeLine_eq _ (fill_mem s) 79

theorem get_int_fst (w : World) (min max d : Int) :
    (get_int w min max d).1 =
      get_int_value (w.indeterminate w.stdin.fill.next) ((w.stdin.line ++ ['\n']).take 79)
        min max d := by
  unfold get_int
  simp only [fgets_fst]

/-- On an empty line `fgets` stores the newline alone and `get_int` reads
nothing further. -/
theorem get_int_blank (w : World) (min max d : Int) (h : w.stdin.line = []) :
    get_int w min max d =
      (get_int_value (w.indeterminate w.stdin.fill.next) ['\n'] min max d,
       { w with stdin := (fgets 80 w.stdin).2 }) := by
  have hf : (fgets 80 w.stdin).1 = ['\n'] := by rw [fgets_fst, h]; rfl
  unfold get_int
  simp only [hf]
  simp

theorem get_int_value_blank (junk : Int) (min max d : Int)
    (h1 : min ≤ d) (h2 : d ≤ max) (h3 : INT_MIN ≤ d) (h4 : d ≤ INT_MAX) :
    get_int_value junk ['\n'] min max d = d := by
  unfold get_int_value
  have hd : toInt32 d = d := toInt32_of_range d h3 h4
  simp only [List.head?_cons, if_true, hd]
  have a : ¬ d < min := by omega
  have b : ¬ d > max := by omega
  simp only [a, b, if_false]

theorem get_int_within_bounds_aux (w : World) (min max d : Int)
    (hmm : min ≤ max) (hlo : INT_MIN ≤ min) (hhi : min ≤ INT_MAX) :
    min ≤ (get_int w min max d).1 ∧ (get_int w min max d).1 ≤ max := by
  rw [get_int_fst]
  exact get_int_value_bounds _ _ min max d hmm hlo hhi

theorem get_int_blank_returns_default_aux (w : World) (min max d : Int)
    (hline : w.stdin.line = []) (h1 : min ≤ d) (h2 : d ≤ max)
    (h3 : INT_MIN ≤ d) (h4 : d ≤ INT_MAX) :
    (get_int w min max d).1 = d := by
  rw [get_int_blank w min max d hline]
  exact get_int_value_blank _ min max d h1 h2 h3 h4

/-! ## C1, C2: the bounded integer reader -/

/-- C1: whatever the prompt, the default `d`, the bounds `min <= max` with
`min` an `int`, the line typed and the value the uninitialised `res` holds,
`get_int` returns `r` with `min <= r <= max`. -/
theorem get_int_within_bounds (w : World) (min max d : Int)
    (hmm : min ≤ max) (hlo : INT_MIN ≤ min) (hhi : min ≤ INT_MAX) :
    min ≤ (get_int w min max d).1 ∧ (get_int w min max d).1 ≤ max := by
  rw [get_int_fst]
  exact get_int_value_bounds _ _ min max d hmm hlo hhi

theorem get_int_within_bounds_witness :
    (0 : Int) ≤ (get_int (World.start (fun _ => ['x', 'y']) (fun _ => 424242) (fun _ => 0))
        0 100 7).1 ∧
    (get_int (World.start (fun _ => ['x', 'y']) (fun _ => 424242) (fun _ => 0)) 0 100 7).1
      ≤ 100 :=
  get_int_within_bounds _ 0 100 7 (by decide) (by decide) (by decide)

/-- C2, as stated, fails: with bounds 0 and 65535 and the default -25536 (a
`Sint16` level that was entered as 40000) an empty line returns 0, not the
default. -/
theorem get_int_blank_default_clamped :
    (World.start (fun _ => []) (fun _ => 0) (fun _ => 0)).stdin.line = [] ∧
    (get_int (World.start (fun _ => []) (fun _ => 0) (fun _ => 0)) 0 65535 (-25536)).1 = 0 ∧
    (0 : Int) ≠ -25536 := by
  decide

/-- C2, amended: on an empty line `get_int` returns exactly the default `d`
whenever `min <= d <= max` and `d` is an `int`. -/
theorem get_int_blank_returns_default (w : World) (min max d : Int)
    (hline : w.stdin.line = []) (h1 : min ≤ d) (h2 : d ≤ max)
    (h3 : INT_MIN ≤ d) (h4 : d ≤ INT_MAX) :
    (get_int w min max d).1 = d := by
  rw [get_int_blank w min max d hline]
  exact get_int_value_blank _ min max d h1 h2 h3 h4

theorem get_int_blank_returns_default_witness :
    (get_int (World.start (fun _ => []) (fun _ => 0) (fun _ => 0)) 0 100 42).1 = 42 :=
  get_int_blank_returns_default _ 0 100 42 (by decide) (by decide) (by decide) (by decide)
    (by decide)

/-! ## Properties: what the editors and factories leave alone -/

theorem input_only_refl (w : World) : input_only w w :=
  ⟨rfl, rfl, rfl, rfl, rfl, rfl, rfl, rfl⟩

theorem input_only_trans {a b c : World} (h1 : input_only a b) (h2 : input_only b c) :
    input_only a c := by
  obtain ⟨p1, p2, p3, p4, p5, p6, p7, p8⟩ := h1
  obtain ⟨q1, q2, q3, q4, q5, q6, q7, q8⟩ := h2
  exact ⟨q1.trans p1, q2.trans p2, q3.trans p3, q4.trans p4, q5.trans p5, q6.trans p6,
    q7.trans p7, q8.trans p8⟩

theorem get_int_input_only (w : World) (min max d : Int) :
    input_only w (get_int w min max d).2 :=
  ⟨rfl, rfl, rfl, rfl, rfl, rfl, rfl, rfl⟩

/-- An editor prompt changes nothing of the state but the unread input. -/
theorem FFB_ATTR_input_only (x : Attr) (a b : Int) (s : SDL_HapticEffect × World) :
    input_only s.2 (FFB_ATTR x a b s).2 :=
  get_int_input_only s.2 a b (x.get s.1)

theorem get_constant_effect_input_input_only (w : World) (e : SDL_HapticEffect) :
    input_only w (get_constant_effect_input w e).2 := by
  simp only [get_constant_effect_input]
  iterate 8 refine input_only_trans ?_ (FFB_ATTR_input_only _ _ _ _)
  exact input_only_refl w

theorem get_periodic_effect_input_input_only (w : World) (e : SDL_HapticEffect) :
    input_only w (get_periodic_effect_input w e).2 := by
  simp only [get_periodic_effect_input]
  iterate 11 refine input_only_trans ?_ (FFB_ATTR_input_only _ _ _ _)
  exact input_only_refl w

theorem get_ramp_effect_input_input_only (w : World) (e : SDL_HapticEffect) :
    input_only w (get_ramp_effect_input w e).2 := by
  simp only [get_ramp_effect_input]
  iterate 9 refine input_only_trans ?_ (FFB_ATTR_input_only _ _ _ _)
  exact input_only_refl w

theorem get_condition_effect_input_input_only (w : World) (e : SDL_HapticEffect) :
    input_only w (get_condition_effect_input w e).2 := by
  simp only [get_condition_effect_input]
  iterate 9 refine input_only_trans ?_ (FFB_ATTR_input_only _ _ _ _)
  exact input_only_refl w

/-- A registration made after prompts only: it is the next call the device
answers, and it is logged. -/
theorem registers_of_input_only (w w' : World) (e : SDL_HapticEffect) (h : input_only w w') :
    (SDL_HapticNewEffect w' e).1 = w.registration w.registered ∧
    (SDL_HapticNewEffect w' e).2.registered = w.registered + 1 ∧
    (SDL_HapticNewEffect w' e).2.log = w.log ++ [DeviceOp.NewEffect e] := by
  obtain ⟨_, p2, p3, p4, _, _, _, _⟩ := h
  simp only [SDL_HapticNewEffect, p2, p3, p4, and_self]

/-- Every factory ends with one registration call, the next one the device
answers; its result is what the factory returns. -/
theorem create_dispatch_registers (c : choice) (hc : c ∈ creation_choices) (w : World)
    (e : SDL_HapticEffect) :
    (create_dispatch c w e).1 = w.registration w.registered ∧
    (create_dispatch c w e).2.2.registered = w.registered + 1 ∧
    (create_dispatch c w e).2.2.log = w.log ++ [DeviceOp.NewEffect (create_dispatch c w e).2.1] := by
  cases c
  case CREATE_CONSTANT =>
    simp only [create_dispatch, create_constant]
    exact registers_of_input_only w _ _ (get_constant_effect_input_input_only w _)
  case CREATE_SINE =>
    simp only [create_dispatch, create_sine]
    exact registers_of_input_only w _ _ (get_periodic_effect_input_input_only w _)
  case CREATE_TRIANGLE =>
    simp only [create_dispatch, create_triangle]
    exact registers_of_input_only w _ _ (get_periodic_effect_input_input_only w _)
  case CREATE_SAWTOOTHUP =>
    simp only [create_dispatch, create_sawtoothup]
    exact registers_of_input_only w _ _ (get_periodic_effect_input_input_only w _)
  case CREATE_SAWTOOTHDOWN =>
    simp only [create_dispatch, create_sawtoothdown]
    exact registers_of_input_only w _ _ (get_periodic_effect_input_input_only w _)
  case CREATE_RAMP =>
    simp only [create_dispatch, create_ramp]
    exact registers_of_input_only w _ _ (get_ramp_effect_input_input_only w _)
  case CREATE_SPRING =>
    simp only [create_dispatch, create_spring]
    exact registers_of_input_only w _ _ (get_condition_effect_input_input_only w _)
  case CREATE_DAMPER =>
    simp only [create_dispatch, create_damper]
    exact registers_of_input_only w _ _ (get_condition_effect_input_input_only w _)
  case CREATE_INERTIA =>
    simp only [create_dispatch, create_inertia]
    exact registers_of_input_only w _ _ (get_condition_effect_input_input_only w _)
  case CREATE_FRICTION =>
    simp only [create_dispatch, create_friction]
    exact registers_of_input_only w _ _ (get_condition_effect_input_input_only w _)
  all_goals exact absurd hc (by decide)

/-! ## Properties: the first inactive slot -/

theorem first_inactive_spec (elems : List haptic_elem) (i : Nat)
    (h : first_inactive elems = some i) :
    i < elems.length ∧ (∀ s, elems[i]? = some s → s.active = false) ∧
    (∀ j s, j < i → elems[j]? = some s → s.active = true) := by
  induction elems generalizing i with
  | nil => simp [first_inactive] at h
  | cons e es ih =>
    unfold first_inactive at h
    by_cases ha : e.active = true
    · simp only [ha, Bool.not_true, Bool.false_eq_true, if_false, Option.map_eq_some'] at h
      obtain ⟨k, hk, rfl⟩ := h
      obtain ⟨h1, h2, h3⟩ := ih k hk
      refine ⟨by simp; omega, ?_, ?_⟩
      · intro s hs
        simp only [List.getElem?_cons_succ] at hs
        exact h2 s hs
      · intro j s hj hs
        cases j with
        | zero =>
          simp only [List.getElem?_cons_zero, Option.some.injEq] at hs
          rw [← hs]; exact ha
        | succ j =>
          simp only [List.getElem?_cons_succ] at hs
          exact h3 j s (by omega) hs
    · have hf : e.active = false := by simpa using ha
      simp only [hf, Bool.not_false, if_true, Option.some.injEq] at h
      subst h
      refine ⟨by simp, ?_, ?_⟩
      · intro s hs
        simp only [List.getElem?_cons_zero, Option.some.injEq] at hs
        rw [← hs]; exact hf
      · intro j s hj
        omega

theorem first_inactive_exists (elems : List haptic_elem)
    (h : ∃ e ∈ elems, e.active = false) : ∃ i, first_inactive elems = some i := by
  induction elems with
  | nil => simp at h
  | cons e es ih =>
    unfold first_inactive
    by_cases ha : e.active = true
    · obtain ⟨x, hx, hxa⟩ := h
      have hx2 : x ∈ es := by
        rcases List.mem_cons.mp hx with h1 | h1
        · subst h1; rw [ha] at hxa; exact absurd hxa (by decide)
        · exact h1
      obtain ⟨k, hk⟩ := ih ⟨x, hx2, hxa⟩
      exact ⟨k + 1, by simp [ha, hk]⟩
    · have hf : e.active = false := by simpa using ha
      exact ⟨0, by simp [hf]⟩

/-- With a free slot, `run_create_effect_choice` returns, having replaced
the first inactive slot and nothing else. -/
theorem run_create_effect_choice_eq (w : World) (elems : List haptic_elem) (c : choice)
    (i : Nat) (h : first_inactive elems = some i) :
    ∃ elem, elems[i]? = some elem ∧
      run_create_effect_choice w elems c =
        some ((create_dispatch c w elem.effect).2.2,
              elems.set i
                (if (create_dispatch c w elem.effect).1 < 0 then
                  { effect := (create_dispatch c w elem.effect).2.1, id := elem.id, active := false }
                 else
                  { effect := (create_dispatch c w elem.effect).2.1,
                    id := (create_dispatch c w elem.effect).1, active := true })) := by
  have hi := (first_inactive_spec elems i h).1
  refine ⟨elems[i], List.getElem?_eq_getElem hi, ?_⟩
  unfold run_create_effect_choice
  simp only [h, List.getElem?_eq_getElem hi]

/-! ## C3, C4: creating an effect -/

/-- C3: for each of the ten creation choices and every slot table with an
inactive slot, `run_create_effect_choice` returns; the factory makes one
registration call, and if the device answers it with `id >= 0` the target
slot (the first inactive one) ends active with that `id` stored, while a
negative answer leaves the target slot inactive. -/
theorem run_create_effect_choice_slot_state (w : World) (elems : List haptic_elem) (c : choice)
    (hc : c ∈ creation_choices) (hfree : ∃ e ∈ elems, e.active = false) :
    ∃ i w' elems' slot,
      first_inactive elems = some i ∧
      run_create_effect_choice w elems c = some (w', elems') ∧
      elems'[i]? = some slot ∧
      w'.registered = w.registered + 1 ∧
      w'.log = w.log ++ [DeviceOp.NewEffect slot.effect] ∧
      (0 ≤ w.registration w.registered →
        slot.active = true ∧ slot.id = w.registration w.registered) ∧
      (w.registration w.registered < 0 → slot.active = false) := by
  obtain ⟨i, hi⟩ := first_inactive_exists elems hfree
  obtain ⟨elem, he, hrun⟩ := run_create_effect_choice_eq w elems c i hi
  obtain ⟨h1, h2, h3⟩ := create_dispatch_registers c hc w elem.effect
  have hlt := (first_inactive_spec elems i hi).1
  refine ⟨i, _, _, _, hi, hrun, List.getElem?_set_self hlt, h2, ?_, ?_, ?_⟩
  · rw [h3]; split <;> rfl
  · intro hpos
    rw [h1]
    have : ¬ (w.registration w.registered < 0) := by omega
    simp only [this, if_false, and_self]
  · intro hneg
    rw [h1]
    simp only [hneg, if_true]

theorem run_create_effect_choice_slot_state_witness :
    ∃ i w' elems' slot,
      first_inactive (calloc 2) = some i ∧
      run_create_effect_choice (World.start (fun _ => []) (fun _ => 0) (fun _ => 5)) (calloc 2)
        choice.CREATE_SPRING = some (w', elems') ∧
      elems'[i]? = some slot ∧
      w'.registered = 0 + 1 ∧
      w'.log = [] ++ [DeviceOp.NewEffect slot.effect] ∧
      ((0 : Int) ≤ 5 → slot.active = true ∧ slot.id = 5) ∧
      ((5 : Int) < 0 → slot.active = false) :=
  run_create_effect_choice_slot_state (World.start (fun _ => []) (fun _ => 0) (fun _ => 5))
    (calloc 2) choice.CREATE_SPRING (by decide) ⟨⟨zero_effect, 0, false⟩, by decide, rfl⟩

/-- C4: for every slot table with an inactive slot and every choice,
`run_create_effect_choice` returns having written only the slot at the
smallest index `i` whose active flag is false: the table keeps its length
and every other slot, every active one among them, is unchanged. -/
theorem run_create_effect_choice_frame (w : World) (elems : List haptic_elem) (c : choice)
    (hfree : ∃ e ∈ elems, e.active = false) :
    ∃ (i : Nat) (w' : World) (elems' : List haptic_elem),
      run_create_effect_choice w elems c = some (w', elems') ∧
      i < elems.length ∧
      (∀ s, elems[i]? = some s → s.active = false) ∧
      (∀ j s, j < i → elems[j]? = some s → s.active = true) ∧
      elems'.length = elems.length ∧
      (∀ j : Nat, j ≠ i → elems'[j]? = elems[j]?) ∧
      (∀ (j : Nat) (s : haptic_elem), elems[j]? = some s → s.active = true →
        elems'[j]? = some s) := by
  obtain ⟨i, hi⟩ := first_inactive_exists elems hfree
  obtain ⟨elem, he, hrun⟩ := run_create_effect_choice_eq w elems c i hi
  obtain ⟨h1, h2, h3⟩ := first_inactive_spec elems i hi
  refine ⟨i, _, _, hrun, h1, h2, h3, List.length_set _ _ _, ?_, ?_⟩
  · intro j hj
    exact List.getElem?_set_ne (Ne.symm hj)
  · intro j s hs ha
    have hj : j ≠ i := by
      intro hji
      subst hji
      have := h2 s hs
      rw [ha] at this
      exact absurd this (by decide)
    rw [List.getElem?_set_ne (Ne.symm hj)]
    exact hs

theorem run_create_effect_choice_frame_witness :
    ∃ (i : Nat) (w' : World) (elems' : List haptic_elem),
      run_create_effect_choice (World.start (fun _ => []) (fun _ => 0) (fun _ => 1))
        [⟨zero_effect, 0, true⟩, ⟨zero_effect, 7, false⟩, ⟨zero_effect, 2, true⟩]
        choice.CREATE_RAMP = some (w', elems') ∧
      i < [(⟨zero_effect, 0, true⟩ : haptic_elem), ⟨zero_effect, 7, false⟩,
        ⟨zero_effect, 2, true⟩].length ∧
      (∀ s, [(⟨zero_effect, 0, true⟩ : haptic_elem), ⟨zero_effect, 7, false⟩,
        ⟨zero_effect, 2, true⟩][i]? = some s → s.active = false) ∧
      (∀ j s, j < i → [(⟨zero_effect, 0, true⟩ : haptic_elem), ⟨zero_effect, 7, false⟩,
        ⟨zero_effect, 2, true⟩][j]? = some s → s.active = true) ∧
      elems'.length = [(⟨zero_effect, 0, true⟩ : haptic_elem), ⟨zero_effect, 7, false⟩,
        ⟨zero_effect, 2, true⟩].length ∧
      (∀ j : Nat, j ≠ i → elems'[j]? = [(⟨zero_effect, 0, true⟩ : haptic_elem),
        ⟨zero_effect, 7, false⟩, ⟨zero_effect, 2, true⟩][j]?) ∧
      (∀ (j : Nat) (s : haptic_elem), [(⟨zero_effect, 0, true⟩ : haptic_elem),
        ⟨zero_effect, 7, false⟩, ⟨zero_effect, 2, true⟩][j]? = some s → s.active = true →
        elems'[j]? = some s) :=
  run_create_effect_choice_frame (World.start (fun _ => []) (fun _ => 0) (fun _ => 1))
    [⟨zero_effect, 0, true⟩, ⟨zero_effect, 7, false⟩, ⟨zero_effect, 2, true⟩]
    choice.CREATE_RAMP ⟨⟨zero_effect, 7, false⟩, by decide, rfl⟩

/-! ## Properties: looking an identifier up -/

/-- The identifier `get_id` looks for: the line read, clamped into
`[0, num_elems]`, with the previous identifier as the default. -/
theorem get_id_eq (w : World) (elems : List haptic_elem) :
    get_id w elems =
      (if elems.any (fun e => e.active && decide (e.id = (get_int w 0 elems.length w.id).1))
        then (get_int w 0 elems.length w.id).1 else -1,
       { (get_int w 0 elems.length w.id).2 with id := (get_int w 0 elems.length w.id).1 }) := by
  unfold get_id
  simp only []
  split <;> simp_all

theorem get_id_log (w : World) (elems : List haptic_elem) :
    (get_id w elems).2.log = w.log ∧ (get_id w elems).2.registered = w.registered ∧
    (get_id w elems).2.iterations = w.iterations ∧ (get_id w elems).2.gain = w.gain := by
  rw [get_id_eq]
  exact ⟨rfl, rfl, rfl, rfl⟩

theorem entered_id_nonneg (w : World) (elems : List haptic_elem) :
    0 ≤ (get_int w 0 elems.length w.id).1 :=
  (get_int_within_bounds_aux w 0 elems.length w.id (by omega) (by decide) (by decide)).1

theorem get_id_found (w : World) (elems : List haptic_elem) (h : 0 ≤ (get_id w elems).1) :
    (get_id w elems).1 = (get_int w 0 elems.length w.id).1 ∧
    ∃ s ∈ elems, s.active = true ∧ s.id = (get_id w elems).1 := by
  rw [get_id_eq] at h ⊢
  by_cases ha : elems.any (fun e => e.active && decide (e.id = (get_int w 0 elems.length w.id).1))
      = true
  · simp only [ha, if_true]
    refine ⟨trivial, ?_⟩
    obtain ⟨s, hs, hp⟩ := List.any_eq_true.mp ha
    simp only [Bool.and_eq_true, decide_eq_true_eq] at hp
    exact ⟨s, hs, hp.1, hp.2⟩
  · simp [ha] at h

theorem get_id_not_found (w : World) (elems : List haptic_elem)
    (h : ∀ s ∈ elems, ¬ (s.active = true ∧ s.id = (get_int w 0 elems.length w.id).1)) :
    (get_id w elems).1 = -1 := by
  rw [get_id_eq]
  have ha : elems.any (fun e => e.active && decide (e.id = (get_int w 0 elems.length w.id).1))
      = false := by
    rw [List.any_eq_false]
    intro s hs
    have := h s hs
    simpa using this
  simp only [ha]
  rfl

/-! ## C5, C6: destroying an effect, and identifiers that are not found -/

/-- The table matters: `destroy_effect` clears the slot at table index `id`
(source line 863).  In a two-slot table whose slot 0 is active and holds
identifier 1 (a table no device that numbers effects by slot produces),
entering 1 is found, the destroy is issued, slot 0 stays active and a later
lookup of 1 still finds it. -/
theorem destroy_effect_clears_index_not_holder :
    (get_id (World.start (fun k => if k = 0 then ['1'] else []) (fun _ => 0) (fun _ => 0))
      [⟨zero_effect, 1, true⟩, ⟨zero_effect, 0, false⟩]).1 = 1 ∧
    (destroy_effect (World.start (fun k => if k = 0 then ['1'] else []) (fun _ => 0) (fun _ => 0))
      [⟨zero_effect, 1, true⟩, ⟨zero_effect, 0, false⟩]).map
        (fun r => (r.1.log, r.2.map (fun s => (s.id, s.active)), (get_id r.1 r.2).1)) =
      some ([DeviceOp.DestroyEffect 1], [(1, true), (0, false)], 1) := by
  decide

/-- When `get_id` finds the entered identifier and the active slots holding
it sit at the table index equal to it, `destroy_effect` returns, issues the
destroy for it, the slot that held it ends inactive, no active slot holds it
any more, and any later `get_id` lookup of the same identifier in the
resulting table reports -1. -/
theorem destroy_clears_holder_of_indexed (w : World) (elems : List haptic_elem)
    (hfound : 0 ≤ (get_id w elems).1)
    (hidx : ∀ (j : Nat) (s : haptic_elem), elems[j]? = some s → s.active = true →
      s.id = (get_id w elems).1 → (j : Int) = (get_id w elems).1) :
    ∃ (w' : World) (elems' : List haptic_elem) (held slot : haptic_elem),
      destroy_effect w elems = some (w', elems') ∧
      w'.log = w.log ++ [DeviceOp.DestroyEffect (get_id w elems).1] ∧
      elems[((get_id w elems).1).toNat]? = some held ∧
      held.active = true ∧ held.id = (get_id w elems).1 ∧
      elems'[((get_id w elems).1).toNat]? = some slot ∧ slot.active = false ∧
      (∀ s ∈ elems', ¬ (s.active = true ∧ s.id = (get_id w elems).1)) ∧
      (∀ w2 : World, (get_int w2 0 elems'.length w2.id).1 = (get_id w elems).1 →
        (get_id w2 elems').1 = -1) := by
  obtain ⟨_, s, hs, hsa, hsid⟩ := get_id_found w elems hfound
  obtain ⟨j, hj⟩ := List.mem_iff_getElem?.mp hs
  have hji := hidx j s hj hsa hsid
  have hnat : ((get_id w elems).1).toNat = j := by omega
  have hjlt : j < elems.length := by
    rcases List.getElem?_eq_some.mp hj with ⟨h, _⟩
    exact h
  have hnone : ∀ t ∈ elems.set j { s with active := false },
      ¬ (t.active = true ∧ t.id = (get_id w elems).1) := by
    intro t ht hcon
    obtain ⟨k, hk⟩ := List.mem_iff_getElem?.mp ht
    by_cases hkj : k = j
    · subst hkj
      rw [List.getElem?_set_self hjlt] at hk
      simp only [Option.some.injEq] at hk
      rw [← hk] at hcon
      exact absurd hcon.1 (by simp)
    · rw [List.getElem?_set_ne (Ne.symm hkj)] at hk
      have := hidx k t hk hcon.1 hcon.2
      omega
  refine ⟨SDL_HapticDestroyEffect (get_id w elems).2 (get_id w elems).1,
    elems.set j { s with active := false }, s, { s with active := false }, ?_, ?_, ?_, hsa, hsid,
    ?_, rfl, hnone, ?_⟩
  · unfold destroy_effect
    have hnl : ¬ ((get_id w elems).1 < 0) := by omega
    simp only [hnl, if_false, hnat, hj]
  · simp only [SDL_HapticDestroyEffect, (get_id_log w elems).1]
  · rw [hnat]; exact hj
  · rw [hnat]; exact List.getElem?_set_self hjlt
  · intro w2 h2
    apply get_id_not_found
    intro t ht
    rw [h2]
    exact hnone t ht

/-! ### The tables the program can hold -/

theorem ids_are_indices_calloc (num_elems : Nat) : ids_are_indices (calloc num_elems) := by
  intro j s hj ha
  have hm : s ∈ calloc num_elems := List.getElem?_mem hj
  have hs := List.eq_of_mem_replicate hm
  rw [hs] at ha
  exact absurd ha (by decide)

theorem ids_are_indices_set (elems : List haptic_elem) (i : Nat) (slot : haptic_elem)
    (h : ids_are_indices elems) (hs : slot.active = true → slot.id = (i : Int)) :
    ids_are_indices (elems.set i slot) := by
  intro j s hj ha
  by_cases hji : j = i
  · subst hji
    rw [List.getElem?_set] at hj
    simp only [if_true] at hj
    split at hj
    · simp only [Option.some.injEq] at hj
      rw [← hj] at ha ⊢
      exact hs ha
    · exact absurd hj (by simp)
  · rw [List.getElem?_set_ne (Ne.symm hji)] at hj
    exact h j s hj ha

theorem device_numbers_by_slot_of_input_only (w w' : World) (elems : List haptic_elem)
    (hio : input_only w w') (h : device_numbers_by_slot w elems) :
    device_numbers_by_slot w' elems := by
  obtain ⟨_, p2, p3, _⟩ := hio
  unfold device_numbers_by_slot at h ⊢
  rw [p2, p3]
  exact h

theorem run_create_effect_choice_indexed (w : World) (elems : List haptic_elem) (c : choice)
    (hc : c ∈ creation_choices) (hinv : ids_are_indices elems)
    (hdev : device_numbers_by_slot w elems) (r : World × List haptic_elem)
    (hrun : run_create_effect_choice w elems c = some r) : ids_are_indices r.2 := by
  cases hfi : first_inactive elems with
  | none =>
    unfold run_create_effect_choice at hrun
    simp [hfi] at hrun
  | some i =>
    obtain ⟨elem, _, heq⟩ := run_create_effect_choice_eq w elems c i hfi
    obtain ⟨hreg, _, _⟩ := create_dispatch_registers c hc w elem.effect
    rw [heq] at hrun
    simp only [Option.some.injEq] at hrun
    rw [← hrun]
    apply ids_are_indices_set elems i _ hinv
    rw [hreg]
    intro hact
    rcases hdev with hneg | ⟨hpos, hfirst⟩
    · simp only [hneg, if_true] at hact
      exact absurd hact (by simp)
    · have hnn : ¬ (w.registration w.registered < 0) := by omega
      simp only [hnn, if_false]
      rw [hfi] at hfirst
      simp only [Option.some.injEq] at hfirst
      omega

theorem get_create_effect_choice_spec (w : World) :
    input_only w (get_create_effect_choice w).2 ∧
    ((get_create_effect_choice w).1 = choice.TRY_AGAIN ∨
      (get_create_effect_choice w).1 ∈ creation_choices) := by
  unfold get_create_effect_choice
  simp only []
  repeat' split
  all_goals exact ⟨⟨rfl, rfl, rfl, rfl, rfl, rfl, rfl, rfl⟩, by simp [creation_choices]⟩

theorem create_effect_indexed (fuel : Nat) (w : World) (elems : List haptic_elem)
    (hinv : ids_are_indices elems) (hdev : device_numbers_by_slot w elems)
    (r : World × List haptic_elem) (h : create_effect fuel w elems = some r) :
    ids_are_indices r.2 := by
  induction fuel generalizing w with
  | zero => simp [create_effect] at h
  | succ fuel ih =>
    obtain ⟨hio, hch⟩ := get_create_effect_choice_spec w
    have hdev2 := device_numbers_by_slot_of_input_only w _ elems hio hdev
    unfold create_effect at h
    simp only [] at h
    split at h
    · rename_i hne
      rcases hch with htry | hmem
      · exact absurd htry hne
      · exact run_create_effect_choice_indexed _ elems _ hmem hinv hdev2 r h
    · exact ih _ hdev2 h

theorem modify_effect_indexed (w : World) (elems : List haptic_elem)
    (hinv : ids_are_indices elems) (r : World × List haptic_elem)
    (h : modify_effect w elems = some r) : ids_are_indices r.2 := by
  unfold modify_effect at h
  simp only [] at h
  split at h
  · simp only [Option.some.injEq] at h
    rw [← h]; exact hinv
  · split at h
    · exact absurd h (by simp)
    · rename_i elem helem
      simp only [Option.some.injEq] at h
      rw [← h]
      apply ids_are_indices_set elems _ _ hinv
      intro hact
      exact hinv _ elem helem hact

theorem destroy_effect_indexed (w : World) (elems : List haptic_elem)
    (hinv : ids_are_indices elems) (r : World × List haptic_elem)
    (h : destroy_effect w elems = some r) : ids_are_indices r.2 := by
  unfold destroy_effect at h
  simp only [] at h
  split at h
  · simp only [Option.some.injEq] at h
    rw [← h]; exact hinv
  · split at h
    · exact absurd h (by simp)
    · simp only [Option.some.injEq] at h
      rw [← h]
      apply ids_are_indices_set elems _ _ hinv
      intro hact
      exact absurd hact (by simp)

theorem run_choice_indexed (fuel : Nat) (w : World) (elems : List haptic_elem) (c : choice)
    (hinv : ids_are_indices elems) (hdev : device_numbers_by_slot w elems)
    (r : World × List haptic_elem) (h : run_choice fuel w elems c = some r) :
    ids_are_indices r.2 := by
  cases c
  case CREATE_EFFECT => exact create_effect_indexed fuel w elems hinv hdev r h
  case MODIFY_EFFECT => exact modify_effect_indexed w elems hinv r h
  case DESTROY_EFFECT => exact destroy_effect_indexed w elems hinv r h
  all_goals
    simp only [run_choice, Option.some.injEq] at h
    rw [← h]
    exact hinv

/-- In every table the program can hold, an active slot's identifier is its
index. -/
theorem reachable_table_indexed (elems : List haptic_elem) (h : reachable_table elems) :
    ids_are_indices elems := by
  induction h with
  | allocated num_elems => exact ids_are_indices_calloc num_elems
  | handled fuel w elems c elems' _ hdev hrun ih =>
    cases hr : run_choice fuel w elems c with
    | none => simp [hr] at hrun
    | some r =>
      simp only [hr, Option.map_some', Option.some.injEq] at hrun
      rw [← hrun]
      exact run_choice_indexed fuel w elems c ih hdev r hr

/-- C5: for every slot table the program can hold and every entered
identifier for which `get_id` finds an active slot holding it,
`destroy_effect` returns, issues the destroy for it, and the slot that held
it ends with `active = false`; no active slot holds the identifier any more,
so any later `get_id` lookup of the same identifier in the resulting table
reports -1. -/
theorem destroy_effect_deactivates (w : World) (elems : List haptic_elem)
    (hreach : reachable_table elems) (hfound : 0 ≤ (get_id w elems).1) :
    ∃ (w' : World) (elems' : List haptic_elem) (held slot : haptic_elem),
      destroy_effect w elems = some (w', elems') ∧
      w'.log = w.log ++ [DeviceOp.DestroyEffect (get_id w elems).1] ∧
      elems[((get_id w elems).1).toNat]? = some held ∧
      held.active = true ∧ held.id = (get_id w elems).1 ∧
      elems'[((get_id w elems).1).toNat]? = some slot ∧ slot.active = false ∧
      (∀ s ∈ elems', ¬ (s.active = true ∧ s.id = (get_id w elems).1)) ∧
      (∀ w2 : World, (get_int w2 0 elems'.length w2.id).1 = (get_id w elems).1 →
        (get_id w2 elems').1 = -1) := by
  have hinv := reachable_table_indexed elems hreach
  apply destroy_clears_holder_of_indexed w elems hfound
  intro j s hj ha hid
  rw [← hid]
  exact (hinv j s hj ha).symm

theorem destroy_effect_deactivates_witness :
    reachable_table
      ([⟨⟨1, ⟨1, ⟨9000, 0, 0⟩⟩, 2000, 0, 0, 0, ⟨32767, 0, 0, 0, 0⟩, ⟨0, 0, 0, 0, 0, 0, 0, 0⟩,
        ⟨⟨0, 0, 0⟩, ⟨0, 0, 0⟩, ⟨0, 0, 0⟩, ⟨0, 0, 0⟩, ⟨0, 0, 0⟩, ⟨0, 0, 0⟩⟩, ⟨0, 0, 0, 0, 0, 0⟩⟩,
        0, true⟩, ⟨zero_effect, 0, false⟩] : List haptic_elem) ∧
    (run_choice 1 (World.start (fun k => if k = 0 then ['c'] else []) (fun _ => 0) (fun _ => 0))
      (calloc 2) choice.CREATE_EFFECT).map (fun r => r.2) = some
      [⟨⟨1, ⟨1, ⟨9000, 0, 0⟩⟩, 2000, 0, 0, 0, ⟨32767, 0, 0, 0, 0⟩, ⟨0, 0, 0, 0, 0, 0, 0, 0⟩,
        ⟨⟨0, 0, 0⟩, ⟨0, 0, 0⟩, ⟨0, 0, 0⟩, ⟨0, 0, 0⟩, ⟨0, 0, 0⟩, ⟨0, 0, 0⟩⟩, ⟨0, 0, 0, 0, 0, 0⟩⟩,
        0, true⟩, ⟨zero_effect, 0, false⟩] ∧
    (get_id (World.start (fun _ => ['0']) (fun _ => 0) (fun _ => 0))
        [⟨⟨1, ⟨1, ⟨9000, 0, 0⟩⟩, 2000, 0, 0, 0, ⟨32767, 0, 0, 0, 0⟩, ⟨0, 0, 0, 0, 0, 0, 0, 0⟩,
        ⟨⟨0, 0, 0⟩, ⟨0, 0, 0⟩, ⟨0, 0, 0⟩, ⟨0, 0, 0⟩, ⟨0, 0, 0⟩, ⟨0, 0, 0⟩⟩, ⟨0, 0, 0, 0, 0, 0⟩⟩,
        0, true⟩, ⟨zero_effect, 0, false⟩]).1 = 0 ∧
    ∃ (w' : World) (elems' : List haptic_elem) (held slot : haptic_elem),
      destroy_effect (World.start (fun _ => ['0']) (fun _ => 0) (fun _ => 0))
        [⟨⟨1, ⟨1, ⟨9000, 0, 0⟩⟩, 2000, 0, 0, 0, ⟨32767, 0, 0, 0, 0⟩, ⟨0, 0, 0, 0, 0, 0, 0, 0⟩,
        ⟨⟨0, 0, 0⟩, ⟨0, 0, 0⟩, ⟨0, 0, 0⟩, ⟨0, 0, 0⟩, ⟨0, 0, 0⟩, ⟨0, 0, 0⟩⟩, ⟨0, 0, 0, 0, 0, 0⟩⟩,
        0, true⟩, ⟨zero_effect, 0, false⟩] = some (w', elems') ∧
      w'.log = (World.start (fun _ => ['0']) (fun _ => 0) (fun _ => 0)).log ++
        [DeviceOp.DestroyEffect (get_id (World.start (fun _ => ['0']) (fun _ => 0) (fun _ => 0))
        [⟨⟨1, ⟨1, ⟨9000, 0, 0⟩⟩, 2000, 0, 0, 0, ⟨32767, 0, 0, 0, 0⟩, ⟨0, 0, 0, 0, 0, 0, 0, 0⟩,
        ⟨⟨0, 0, 0⟩, ⟨0, 0, 0⟩, ⟨0, 0, 0⟩, ⟨0, 0, 0⟩, ⟨0, 0, 0⟩, ⟨0, 0, 0⟩⟩, ⟨0, 0, 0, 0, 0, 0⟩⟩,
        0, true⟩, ⟨zero_effect, 0, false⟩]).1] ∧
      ([⟨⟨1, ⟨1, ⟨9000, 0, 0⟩⟩, 2000, 0, 0, 0, ⟨32767, 0, 0, 0, 0⟩, ⟨0, 0, 0, 0, 0, 0, 0, 0⟩,
        ⟨⟨0, 0, 0⟩, ⟨0, 0, 0⟩, ⟨0, 0, 0⟩, ⟨0, 0, 0⟩, ⟨0, 0, 0⟩, ⟨0, 0, 0⟩⟩, ⟨0, 0, 0, 0, 0, 0⟩⟩,
        0, true⟩, ⟨zero_effect, 0, false⟩] : List haptic_elem)[((get_id (World.start (fun _ => ['0']) (fun _ => 0) (fun _ => 0))
        [⟨⟨1, ⟨1, ⟨9000, 0, 0⟩⟩, 2000, 0, 0, 0, ⟨32767, 0, 0, 0, 0⟩, ⟨0, 0, 0, 0, 0, 0, 0, 0⟩,
        ⟨⟨0, 0, 0⟩, ⟨0, 0, 0⟩, ⟨0, 0, 0⟩, ⟨0, 0, 0⟩, ⟨0, 0, 0⟩, ⟨0, 0, 0⟩⟩, ⟨0, 0, 0, 0, 0, 0⟩⟩,
        0, true⟩, ⟨zero_effect, 0, false⟩]).1).toNat]? = some held ∧
      held.active = true ∧
      held.id = (get_id (World.start (fun _ => ['0']) (fun _ => 0) (fun _ => 0))
        [⟨⟨1, ⟨1, ⟨9000, 0, 0⟩⟩, 2000, 0, 0, 0, ⟨32767, 0, 0, 0, 0⟩, ⟨0, 0, 0, 0, 0, 0, 0, 0⟩,
        ⟨⟨0, 0, 0⟩, ⟨0, 0, 0⟩, ⟨0, 0, 0⟩, ⟨0, 0, 0⟩, ⟨0, 0, 0⟩, ⟨0, 0, 0⟩⟩, ⟨0, 0, 0, 0, 0, 0⟩⟩,
        0, true⟩, ⟨zero_effect, 0, false⟩]).1 ∧
      elems'[((get_id (World.start (fun _ => ['0']) (fun _ => 0) (fun _ => 0))
        [⟨⟨1, ⟨1, ⟨9000, 0, 0⟩⟩, 2000, 0, 0, 0, ⟨32767, 0, 0, 0, 0⟩, ⟨0, 0, 0, 0, 0, 0, 0, 0⟩,
        ⟨⟨0, 0, 0⟩, ⟨0, 0, 0⟩, ⟨0, 0, 0⟩, ⟨0, 0, 0⟩, ⟨0, 0, 0⟩, ⟨0, 0, 0⟩⟩, ⟨0, 0, 0, 0, 0, 0⟩⟩,
        0, true⟩, ⟨zero_effect, 0, false⟩]).1).toNat]? = some slot ∧
      slot.active = false ∧
      (∀ s ∈ elems', ¬ (s.active = true ∧ s.id = (get_id (World.start (fun _ => ['0']) (fun _ => 0) (fun _ => 0))
        [⟨⟨1, ⟨1, ⟨9000, 0, 0⟩⟩, 2000, 0, 0, 0, ⟨32767, 0, 0, 0, 0⟩, ⟨0, 0, 0, 0, 0, 0, 0, 0⟩,
        ⟨⟨0, 0, 0⟩, ⟨0, 0, 0⟩, ⟨0, 0, 0⟩, ⟨0, 0, 0⟩, ⟨0, 0, 0⟩, ⟨0, 0, 0⟩⟩, ⟨0, 0, 0, 0, 0, 0⟩⟩,
        0, true⟩, ⟨zero_effect, 0, false⟩]).1)) ∧
      (∀ w2 : World, (get_int w2 0 elems'.length w2.id).1 = (get_id (World.start (fun _ => ['0']) (fun _ => 0) (fun _ => 0))
        [⟨⟨1, ⟨1, ⟨9000, 0, 0⟩⟩, 2000, 0, 0, 0, ⟨32767, 0, 0, 0, 0⟩, ⟨0, 0, 0, 0, 0, 0, 0, 0⟩,
        ⟨⟨0, 0, 0⟩, ⟨0, 0, 0⟩, ⟨0, 0, 0⟩, ⟨0, 0, 0⟩, ⟨0, 0, 0⟩, ⟨0, 0, 0⟩⟩, ⟨0, 0, 0, 0, 0, 0⟩⟩,
        0, true⟩, ⟨zero_effect, 0, false⟩]).1 →
        (get_id w2 elems').1 = -1) :=
  have hreach : reachable_table
      ([⟨⟨1, ⟨1, ⟨9000, 0, 0⟩⟩, 2000, 0, 0, 0, ⟨32767, 0, 0, 0, 0⟩, ⟨0, 0, 0, 0, 0, 0, 0, 0⟩,
        ⟨⟨0, 0, 0⟩, ⟨0, 0, 0⟩, ⟨0, 0, 0⟩, ⟨0, 0, 0⟩, ⟨0, 0, 0⟩, ⟨0, 0, 0⟩⟩, ⟨0, 0, 0, 0, 0, 0⟩⟩,
        0, true⟩, ⟨zero_effect, 0, false⟩] : List haptic_elem) :=
    reachable_table.handled 1 (World.start (fun k => if k = 0 then ['c'] else []) (fun _ => 0) (fun _ => 0))
      (calloc 2) choice.CREATE_EFFECT _ (reachable_table.allocated 2)
      (Or.inr ⟨by decide, by decide⟩) (by decide)
  ⟨hreach, by decide, by decide,
   destroy_effect_deactivates (World.start (fun _ => ['0']) (fun _ => 0) (fun _ => 0)) _ hreach (by decide)⟩

/-- C6: when, after clamping into `[0, num_elems]`, no active slot holds the
entered identifier, `get_id` returns -1 and each of `modify_effect`,
`play_effect`, `stop_effect` and `destroy_effect` returns with the table as
it was and with no operation issued to the device (nothing logged, nothing
registered). -/
theorem not_found_changes_nothing (w : World) (elems : List haptic_elem)
    (h : ∀ s ∈ elems, ¬ (s.active = true ∧ s.id = (get_int w 0 elems.length w.id).1)) :
    (get_id w elems).1 = -1 ∧
    (get_id w elems).2.log = w.log ∧ (get_id w elems).2.registered = w.registered ∧
    modify_effect w elems = some ((get_id w elems).2, elems) ∧
    play_effect w elems = (get_id w elems).2 ∧
    stop_effect w elems = (get_id w elems).2 ∧
    destroy_effect w elems = some ((get_id w elems).2, elems) := by
  have hid := get_id_not_found w elems h
  have hneg : (get_id w elems).1 < 0 := by rw [hid]; decide
  refine ⟨hid, (get_id_log w elems).1, (get_id_log w elems).2.1, ?_, ?_, ?_, ?_⟩
  · unfold modify_effect
    simp only [hneg, if_true]
  · unfold play_effect
    simp only [hneg, if_true]
  · unfold stop_effect
    simp only [hneg, if_true]
  · unfold destroy_effect
    simp only [hneg, if_true]

theorem not_found_changes_nothing_witness :
    (get_id (World.start (fun _ => ['5']) (fun _ => 0) (fun _ => 0))
      [⟨zero_effect, 0, true⟩, ⟨zero_effect, 1, true⟩, ⟨zero_effect, 2, false⟩]).1 = -1 ∧
    (get_id (World.start (fun _ => ['5']) (fun _ => 0) (fun _ => 0))
      [⟨zero_effect, 0, true⟩, ⟨zero_effect, 1, true⟩, ⟨zero_effect, 2, false⟩]).2.log =
      (World.start (fun _ => ['5']) (fun _ => 0) (fun _ => 0)).log ∧
    (get_id (World.start (fun _ => ['5']) (fun _ => 0) (fun _ => 0))
      [⟨zero_effect, 0, true⟩, ⟨zero_effect, 1, true⟩, ⟨zero_effect, 2, false⟩]).2.registered =
      (World.start (fun _ => ['5']) (fun _ => 0) (fun _ => 0)).registered ∧
    modify_effect (World.start (fun _ => ['5']) (fun _ => 0) (fun _ => 0))
      [⟨zero_effect, 0, true⟩, ⟨zero_effect, 1, true⟩, ⟨zero_effect, 2, false⟩] =
      some ((get_id (World.start (fun _ => ['5']) (fun _ => 0) (fun _ => 0))
        [⟨zero_effect, 0, true⟩, ⟨zero_effect, 1, true⟩, ⟨zero_effect, 2, false⟩]).2,
        [⟨zero_effect, 0, true⟩, ⟨zero_effect, 1, true⟩, ⟨zero_effect, 2, false⟩]) ∧
    play_effect (World.start (fun _ => ['5']) (fun _ => 0) (fun _ => 0))
      [⟨zero_effect, 0, true⟩, ⟨zero_effect, 1, true⟩, ⟨zero_effect, 2, false⟩] =
      (get_id (World.start (fun _ => ['5']) (fun _ => 0) (fun _ => 0))
        [⟨zero_effect, 0, true⟩, ⟨zero_effect, 1, true⟩, ⟨zero_effect, 2, false⟩]).2 ∧
    stop_effect (World.start (fun _ => ['5']) (fun _ => 0) (fun _ => 0))
      [⟨zero_effect, 0, true⟩, ⟨zero_effect, 1, true⟩, ⟨zero_effect, 2, false⟩] =
      (get_id (World.start (fun _ => ['5']) (fun _ => 0) (fun _ => 0))
        [⟨zero_effect, 0, true⟩, ⟨zero_effect, 1, true⟩, ⟨zero_effect, 2, false⟩]).2 ∧
    destroy_effect (World.start (fun _ => ['5']) (fun _ => 0) (fun _ => 0))
      [⟨zero_effect, 0, true⟩, ⟨zero_effect, 1, true⟩, ⟨zero_effect, 2, false⟩] =
      some ((get_id (World.start (fun _ => ['5']) (fun _ => 0) (fun _ => 0))
        [⟨zero_effect, 0, true⟩, ⟨zero_effect, 1, true⟩, ⟨zero_effect, 2, false⟩]).2,
        [⟨zero_effect, 0, true⟩, ⟨zero_effect, 1, true⟩, ⟨zero_effect, 2, false⟩]) :=
  not_found_changes_nothing (World.start (fun _ => ['5']) (fun _ => 0) (fun _ => 0))
    [⟨zero_effect, 0, true⟩, ⟨zero_effect, 1, true⟩, ⟨zero_effect, 2, false⟩] (by decide)

/-! ## C7: the condition factories copy axis 0 to axes 1 and 2 -/

theorem toUint16_idem (v : Int) : toUint16 (toUint16 v) = toUint16 v := by
  unfold toUint16; omega

theorem toSint16_idem (v : Int) : toSint16 (toSint16 v) = toSint16 v := by
  unfold toSint16; omega

theorem FFB_ATTR_fst (x : Attr) (a b : Int) (s : SDL_HapticEffect × World) :
    (FFB_ATTR x a b s).1 = x.set s.1 (get_int s.2 a b (x.get s.1)).1 := rfl

/-- The axis-0 members the condition editor leaves are values of their C
types: each is the conversion of what `get_int` returned for it. -/
theorem get_condition_effect_input_stored (w : World) (e : SDL_HapticEffect) :
    ∃ v1 v2 v3 v4 v5 v6 : Int,
      (get_condition_effect_input w e).1.condition.right_sat.i0 = toUint16 v1 ∧
      (get_condition_effect_input w e).1.condition.left_sat.i0 = toUint16 v2 ∧
      (get_condition_effect_input w e).1.condition.right_coeff.i0 = toSint16 v3 ∧
      (get_condition_effect_input w e).1.condition.left_coeff.i0 = toSint16 v4 ∧
      (get_condition_effect_input w e).1.condition.deadband.i0 = toUint16 v5 ∧
      (get_condition_effect_input w e).1.condition.center.i0 = toSint16 v6 := by
  simp only [get_condition_effect_input, FFB_ATTR_fst, attr_condition_center0,
    attr_condition_deadband0, attr_condition_left_coeff0, attr_condition_right_coeff0,
    attr_condition_left_sat0, attr_condition_right_sat0]
  exact ⟨_, _, _, _, _, _, rfl, rfl, rfl, rfl, rfl, rfl⟩

theorem condition_replicate_spec (ed : SDL_HapticEffect)
    (h : ∃ v1 v2 v3 v4 v5 v6 : Int,
      ed.condition.right_sat.i0 = toUint16 v1 ∧ ed.condition.left_sat.i0 = toUint16 v2 ∧
      ed.condition.right_coeff.i0 = toSint16 v3 ∧ ed.condition.left_coeff.i0 = toSint16 v4 ∧
      ed.condition.deadband.i0 = toUint16 v5 ∧ ed.condition.center.i0 = toSint16 v6) :
    axes_replicated (condition_replicate ed).condition ed.condition := by
  obtain ⟨v1, v2, v3, v4, v5, v6, h1, h2, h3, h4, h5, h6⟩ := h
  simp only [axes_replicated, axis_all, condition_replicate,
    attr_condition_right_sat0, attr_condition_right_sat1, attr_condition_right_sat2,
    attr_condition_left_sat0, attr_condition_left_sat1, attr_condition_left_sat2,
    attr_condition_right_coeff0, attr_condition_right_coeff1, attr_condition_right_coeff2,
    attr_condition_left_coeff0, attr_condition_left_coeff1, attr_condition_left_coeff2,
    attr_condition_deadband0, attr_condition_deadband1, attr_condition_deadband2,
    attr_condition_center0, attr_condition_center1, attr_condition_center2,
    h1, h2, h3, h4, h5, h6, toUint16_idem, toSint16_idem, and_self]

/-- C7: for each of `create_spring`, `create_damper`, `create_inertia` and
`create_friction`, whatever is answered to the prompts, the definition left
in the slot has `f[0] = f[1] = f[2]` for each `f` among right_sat, left_sat,
right_coeff, left_coeff, deadband and center, the common value being the
axis-0 value the editor left. -/
theorem condition_factories_replicate_axes (w : World) (e : SDL_HapticEffect) :
    axes_replicated (create_spring w e).2.1.condition
      (get_condition_effect_input w (condition_defaults SDL_HAPTIC_SPRING e)).1.condition ∧
    axes_replicated (create_damper w e).2.1.condition
      (get_condition_effect_input w (condition_defaults SDL_HAPTIC_DAMPER e)).1.condition ∧
    axes_replicated (create_inertia w e).2.1.condition
      (get_condition_effect_input w (condition_defaults SDL_HAPTIC_INERTIA e)).1.condition ∧
    axes_replicated (create_friction w e).2.1.condition
      (get_condition_effect_input w (condition_defaults SDL_HAPTIC_FRICTION e)).1.condition := by
  refine ⟨?_, ?_, ?_, ?_⟩
  · simp only [create_spring]
    exact condition_replicate_spec _ (get_condition_effect_input_stored w _)
  · simp only [create_damper]
    exact condition_replicate_spec _ (get_condition_effect_input_stored w _)
  · simp only [create_inertia]
    exact condition_replicate_spec _ (get_condition_effect_input_stored w _)
  · simp only [create_friction]
    exact condition_replicate_spec _ (get_condition_effect_input_stored w _)

/-! ## C8: defaults accepted with empty lines -/

theorem get_constant_effect_input_eq (w : World) (e : SDL_HapticEffect) :
    get_constant_effect_input w e = edit_all constant_prompts (e, w) := rfl

theorem get_periodic_effect_input_eq (w : World) (e : SDL_HapticEffect) :
    get_periodic_effect_input w e = edit_all periodic_prompts (e, w) := rfl

theorem get_ramp_effect_input_eq (w : World) (e : SDL_HapticEffect) :
    get_ramp_effect_input w e = edit_all ramp_prompts (e, w) := rfl

theorem get_condition_effect_input_eq (w : World) (e : SDL_HapticEffect) :
    get_condition_effect_input w e = edit_all condition_prompts (e, w) := rfl

/-- On an empty line the value read does not depend on the uninitialised
`res`. -/
theorem get_int_value_blank_junk (junk : Int) (min max d : Int) :
    get_int_value junk ['\n'] min max d = blank_value min max d := rfl

theorem FFB_ATTR_blank (x : Attr) (a b : Int) (s : SDL_HapticEffect × World) (n : Nat)
    (h : blank_lines (n + 1) s.2.stdin = true) :
    (FFB_ATTR x a b s).1 = blank_edit s.1 (x, a, b) ∧
    blank_lines n (FFB_ATTR x a b s).2.stdin = true := by
  simp only [blank_lines, Bool.and_eq_true, decide_eq_true_eq] at h
  unfold FFB_ATTR
  simp only [get_int_blank s.2 a b (x.get s.1) h.1, get_int_value_blank_junk]
  exact ⟨rfl, h.2⟩

/-- A run of prompts all answered with empty lines edits the effect by
`blank_edit`, prompt after prompt. -/
theorem edit_all_blank (ps : List (Attr × Int × Int)) (s : SDL_HapticEffect × World)
    (h : blank_lines ps.length s.2.stdin = true) :
    (edit_all ps s).1 = ps.foldl blank_edit s.1 := by
  induction ps generalizing s with
  | nil => rfl
  | cons p ps ih =>
    obtain ⟨h1, h2⟩ := FFB_ATTR_blank p.1 p.2.1 p.2.2 s ps.length h
    unfold edit_all at ih ⊢
    simp only [List.foldl_cons]
    rw [ih _ h2, h1]

theorem create_constant_blank (w : World) (e : SDL_HapticEffect)
    (h : blank_lines 8 w.stdin = true) :
    (create_constant w e).2.1.direction.dir.i0 = 9000 ∧
    (create_constant w e).2.1.length = 2000 ∧
    (create_constant w e).2.1.delay = 0 ∧
    (create_constant w e).2.1.constant.level = 32767 ∧
    (create_constant w e).2.1.constant.attack_length = 0 ∧
    (create_constant w e).2.1.constant.attack_level = 0 ∧
    (create_constant w e).2.1.constant.fade_length = 0 ∧
    (create_constant w e).2.1.constant.fade_level = 0 := by
  simp only [create_constant, get_constant_effect_input_eq]
  rw [edit_all_blank constant_prompts (_, w) h]
  exact ⟨rfl, rfl, rfl, rfl, rfl, rfl, rfl, rfl⟩

theorem periodic_blank (t : Int) (w : World) (e : SDL_HapticEffect)
    (h : blank_lines 11 w.stdin = true) :
    (get_periodic_effect_input w (periodic_defaults t e)).1.direction.dir.i0 = 9000 ∧
    (get_periodic_effect_input w (periodic_defaults t e)).1.length = 2000 ∧
    (get_periodic_effect_input w (periodic_defaults t e)).1.delay = 0 ∧
    (get_periodic_effect_input w (periodic_defaults t e)).1.periodic.attack_length = 0 ∧
    (get_periodic_effect_input w (periodic_defaults t e)).1.periodic.attack_level = 0 ∧
    (get_periodic_effect_input w (periodic_defaults t e)).1.periodic.fade_length = 0 ∧
    (get_periodic_effect_input w (periodic_defaults t e)).1.periodic.fade_level = 0 := by
  simp only [get_periodic_effect_input_eq]
  rw [edit_all_blank periodic_prompts (_, w) h]
  exact ⟨rfl, rfl, rfl, rfl, rfl, rfl, rfl⟩

theorem create_ramp_blank (w : World) (e : SDL_HapticEffect)
    (h : blank_lines 9 w.stdin = true) :
    (create_ramp w e).2.1.direction.dir.i0 = 9000 ∧
    (create_ramp w e).2.1.length = 2000 ∧
    (create_ramp w e).2.1.delay = 0 ∧
    (create_ramp w e).2.1.ramp.attack_length = 0 ∧
    (create_ramp w e).2.1.ramp.attack_level = 0 ∧
    (create_ramp w e).2.1.ramp.fade_length = 0 ∧
    (create_ramp w e).2.1.ramp.fade_level = 0 := by
  simp only [create_ramp, get_ramp_effect_input_eq]
  rw [edit_all_blank ramp_prompts (_, w) h]
  exact ⟨rfl, rfl, rfl, rfl, rfl, rfl, rfl⟩

theorem condition_blank (t : Int) (w : World) (e : SDL_HapticEffect)
    (h : blank_lines 9 w.stdin = true) :
    (condition_replicate
      (get_condition_effect_input w (condition_defaults t e)).1).direction.dir.i0 = 9000 ∧
    (condition_replicate (get_condition_effect_input w (condition_defaults t e)).1).length = 2000 ∧
    (condition_replicate (get_condition_effect_input w (condition_defaults t e)).1).delay = 0 := by
  simp only [get_condition_effect_input_eq]
  rw [edit_all_blank condition_prompts (_, w) h]
  exact ⟨rfl, rfl, rfl⟩

/-- C8: when every prompt of a factory's editor is answered with an empty
line, the definition it leaves keeps the seeded direction 9000, length 2000
and delay 0, and (for the constant, periodic and ramp families, which have
an envelope) zero attack and fade length and level; the constant factory
also keeps level 32767, and with a free slot and a registration that
succeeds the slot it fills becomes active with these values. -/
theorem factories_keep_defaults_on_blank_input (w : World) (e : SDL_HapticEffect) :
    (blank_lines 8 w.stdin = true →
      (create_constant w e).2.1.direction.dir.i0 = 9000 ∧
      (create_constant w e).2.1.length = 2000 ∧
      (create_constant w e).2.1.delay = 0 ∧
      (create_constant w e).2.1.constant.level = 32767 ∧
      (create_constant w e).2.1.constant.attack_length = 0 ∧
      (create_constant w e).2.1.constant.attack_level = 0 ∧
      (create_constant w e).2.1.constant.fade_length = 0 ∧
      (create_constant w e).2.1.constant.fade_level = 0) ∧
    (blank_lines 11 w.stdin = true →
      ∀ c ∈ [choice.CREATE_SINE, choice.CREATE_TRIANGLE, choice.CREATE_SAWTOOTHUP,
          choice.CREATE_SAWTOOTHDOWN],
        (create_dispatch c w e).2.1.direction.dir.i0 = 9000 ∧
        (create_dispatch c w e).2.1.length = 2000 ∧
        (create_dispatch c w e).2.1.delay = 0 ∧
        (create_dispatch c w e).2.1.periodic.attack_length = 0 ∧
        (create_dispatch c w e).2.1.periodic.attack_level = 0 ∧
        (create_dispatch c w e).2.1.periodic.fade_length = 0 ∧
        (create_dispatch c w e).2.1.periodic.fade_level = 0) ∧
    (blank_lines 9 w.stdin = true →
      (create_ramp w e).2.1.direction.dir.i0 = 9000 ∧
      (create_ramp w e).2.1.length = 2000 ∧
      (create_ramp w e).2.1.delay = 0 ∧
      (create_ramp w e).2.1.ramp.attack_length = 0 ∧
      (create_ramp w e).2.1.ramp.attack_level = 0 ∧
      (create_ramp w e).2.1.ramp.fade_length = 0 ∧
      (create_ramp w e).2.1.ramp.fade_level = 0) ∧
    (blank_lines 9 w.stdin = true →
      ∀ c ∈ [choice.CREATE_SPRING, choice.CREATE_DAMPER, choice.CREATE_INERTIA,
          choice.CREATE_FRICTION],
        (create_dispatch c w e).2.1.direction.dir.i0 = 9000 ∧
        (create_dispatch c w e).2.1.length = 2000 ∧
        (create_dispatch c w e).2.1.delay = 0) ∧
    (∀ elems : List haptic_elem, blank_lines 8 w.stdin = true →
      (∃ s ∈ elems, s.active = false) → 0 ≤ w.registration w.registered →
      ∃ (i : Nat) (w' : World) (elems' : List haptic_elem) (slot : haptic_elem),
        first_inactive elems = some i ∧
        run_create_effect_choice w elems choice.CREATE_CONSTANT = some (w', elems') ∧
        elems'[i]? = some slot ∧ slot.active = true ∧
        slot.effect.direction.dir.i0 = 9000 ∧ slot.effect.length = 2000 ∧
        slot.effect.delay = 0 ∧ slot.effect.constant.level = 32767) := by
  refine ⟨create_constant_blank w e, ?_, create_ramp_blank w e, ?_, ?_⟩
  · intro h c hc
    simp only [List.mem_cons, List.mem_singleton, List.not_mem_nil, or_false] at hc
    rcases hc with rfl | rfl | rfl | rfl
    · simp only [create_dispatch, create_sine]
      exact periodic_blank _ w e h
    · simp only [create_dispatch, create_triangle]
      exact periodic_blank _ w e h
    · simp only [create_dispatch, create_sawtoothup]
      exact periodic_blank _ w e h
    · simp only [create_dispatch, create_sawtoothdown]
      exact periodic_blank _ w e h
  · intro h c hc
    simp only [List.mem_cons, List.mem_singleton, List.not_mem_nil, or_false] at hc
    rcases hc with rfl | rfl | rfl | rfl
    · simp only [create_dispatch, create_spring]
      exact condition_blank _ w e h
    · simp only [create_dispatch, create_damper]
      exact condition_blank _ w e h
    · simp only [create_dispatch, create_inertia]
      exact condition_blank _ w e h
    · simp only [create_dispatch, create_friction]
      exact condition_blank _ w e h
  · intro elems h hfree hreg
    obtain ⟨i, hi⟩ := first_inactive_exists elems hfree
    obtain ⟨elem, he, hrun⟩ := run_create_effect_choice_eq w elems choice.CREATE_CONSTANT i hi
    obtain ⟨h1, _, _⟩ := create_dispatch_registers choice.CREATE_CONSTANT (by decide) w elem.effect
    have hlt := (first_inactive_spec elems i hi).1
    have hnn : ¬ ((create_dispatch choice.CREATE_CONSTANT w elem.effect).1 < 0) := by
      rw [h1]; omega
    rw [if_neg hnn] at hrun
    obtain ⟨d1, d2, d3, d4, _⟩ := create_constant_blank w elem.effect h
    exact ⟨i, _, _, _, hi, hrun, List.getElem?_set_self hlt, rfl, d1, d2, d3, d4⟩

theorem factories_keep_defaults_on_blank_input_witness :
    blank_lines 11 (World.start (fun _ => []) (fun _ => 7) (fun _ => 0)).stdin = true ∧
    (create_constant (World.start (fun _ => []) (fun _ => 7) (fun _ => 0))
      zero_effect).2.1.constant.level = 32767 ∧
    (create_dispatch choice.CREATE_SINE (World.start (fun _ => []) (fun _ => 7) (fun _ => 0))
      zero_effect).2.1.length = 2000 ∧
    (create_ramp (World.start (fun _ => []) (fun _ => 7) (fun _ => 0))
      zero_effect).2.1.direction.dir.i0 = 9000 ∧
    (create_dispatch choice.CREATE_SPRING (World.start (fun _ => []) (fun _ => 7) (fun _ => 0))
      zero_effect).2.1.delay = 0 ∧
    ∃ (i : Nat) (w' : World) (elems' : List haptic_elem) (slot : haptic_elem),
      first_inactive (calloc 3) = some i ∧
      run_create_effect_choice (World.start (fun _ => []) (fun _ => 7) (fun _ => 0)) (calloc 3)
        choice.CREATE_CONSTANT = some (w', elems') ∧
      elems'[i]? = some slot ∧ slot.active = true ∧
      slot.effect.direction.dir.i0 = 9000 ∧ slot.effect.length = 2000 ∧
      slot.effect.delay = 0 ∧ slot.effect.constant.level = 32767 :=
  ⟨by decide,
   ((factories_keep_defaults_on_blank_input _ zero_effect).1 (by decide)).2.2.2.1,
   (((factories_keep_defaults_on_blank_input _ zero_effect).2.1 (by decide))
      choice.CREATE_SINE (by decide)).2.1,
   ((factories_keep_defaults_on_blank_input _ zero_effect).2.2.1 (by decide)).1,
   (((factories_keep_defaults_on_blank_input _ zero_effect).2.2.2.1 (by decide))
      choice.CREATE_SPRING (by decide)).2.2,
   (factories_keep_defaults_on_blank_input
      (World.start (fun _ => []) (fun _ => 7) (fun _ => 0)) zero_effect).2.2.2.2
      (calloc 3) (by decide) ⟨⟨zero_effect, 0, false⟩, by decide, rfl⟩ (by decide)⟩

/-! ## Properties: reading a number typed in decimal -/

theorem digit_value_ofNat (d : Nat) (h : d < 10) :
    digit_value (Char.ofNat (48 + d)) = some d := by
  interval_cases d <;> rfl

theorem digit_char_facts (d : Nat) (h : d < 10) :
    isspace (Char.ofNat (48 + d)) = false ∧ Char.ofNat (48 + d) ≠ '\n' ∧
    Char.ofNat (48 + d) ≠ '-' ∧ Char.ofNat (48 + d) ≠ '+' ∧
    (d ≠ 0 → Char.ofNat (48 + d) ≠ '0') := by
  interval_cases d <;> decide

theorem scan_digits_map (L : List Nat) (hL : ∀ d ∈ L, d < 10) (acc : Nat) :
    scan_digits 10 acc (L.map (fun d => Char.ofNat (48 + d)) ++ ['\n']) =
      L.foldl (fun a d => a * 10 + d) acc := by
  induction L generalizing acc with
  | nil => rfl
  | cons d L ih =>
    have hd : d < 10 := hL d (List.mem_cons_self _ _)
    simp only [List.map_cons, List.cons_append, scan_digits, digit_value_ofNat d hd, hd, if_true,
      List.foldl_cons]
    exact ih (fun x hx => hL x (List.mem_cons_of_mem _ hx)) _

theorem foldl_reverse_digits (L : List Nat) :
    L.reverse.foldl (fun a d => a * 10 + d) 0 = Nat.ofDigits 10 L := by
  rw [List.foldl_reverse, Nat.ofDigits_eq_foldr]
  congr 1
  funext x y
  simp [mul_comm, add_comm]

/-- The decimal text of a positive number: a digit other than 0, then digits. -/
theorem decimal_nat_pos (n : Nat) (hn : n ≠ 0) :
    ∃ (d : Nat) (t : List Nat), 0 < d ∧ d < 10 ∧ (∀ x ∈ t, x < 10) ∧
      (Nat.digits 10 n).reverse = d :: t ∧
      decimal_nat n = Char.ofNat (48 + d) :: t.map (fun d => Char.ofNat (48 + d)) := by
  have hne : Nat.digits 10 n ≠ [] := Nat.digits_ne_nil_iff_ne_zero.mpr hn
  have hlast := Nat.getLast_digit_ne_zero 10 hn
  have hall : ∀ x ∈ (Nat.digits 10 n).reverse, x < 10 := by
    intro x hx
    exact Nat.digits_lt_base (by decide) (List.mem_reverse.mp hx)
  cases hr : (Nat.digits 10 n).reverse with
  | nil => exact absurd (List.reverse_eq_nil_iff.mp hr) hne
  | cons d t =>
    rw [hr] at hall
    have hd : d < 10 := hall d (List.mem_cons_self _ _)
    have hL : Nat.digits 10 n = t.reverse ++ [d] := by
      have := congrArg List.reverse hr
      simpa using this
    have hd0 : d ≠ 0 := by
      have h2 : (Nat.digits 10 n).getLast hne = d := by
        simp [hL]
      rw [h2] at hlast
      exact hlast
    refine ⟨d, t, by omega, hd, fun x hx => hall x (List.mem_cons_of_mem _ hx), rfl, ?_⟩
    unfold decimal_nat
    simp [hn, hr]

theorem decimal_nat_head (n : Nat) :
    ∃ (d : Nat) (rest : List Char), d < 10 ∧ decimal_nat n = Char.ofNat (48 + d) :: rest := by
  by_cases hn : n = 0
  · subst hn
    exact ⟨0, [], by decide, rfl⟩
  · obtain ⟨d, t, _, hd, _, _, htxt⟩ := decimal_nat_pos n hn
    exact ⟨d, _, hd, htxt⟩

theorem scan_magnitude_decimal_nat (n : Nat) :
    scan_magnitude (decimal_nat n ++ ['\n']) = some n := by
  by_cases hn : n = 0
  · subst hn
    rfl
  · obtain ⟨d, t, hd0, hd, ht, hr, htxt⟩ := decimal_nat_pos n hn
    have hc := (digit_char_facts d hd).2.2.2.2 (by omega)
    have hdig : is_digit 10 (Char.ofNat (48 + d)) = true := by
      simp [is_digit, digit_value_ofNat d hd, hd]
    rw [htxt]
    simp only [List.cons_append, scan_magnitude, hc, if_false, hdig, if_true]
    have := scan_digits_map (d :: t) (by
      intro x hx
      rcases List.mem_cons.mp hx with h | h
      · rw [h]; exact hd
      · exact ht x h) 0
    simp only [List.map_cons, List.cons_append] at this
    rw [this, ← hr, foldl_reverse_digits, Nat.ofDigits_digits]

theorem decimal_nat_length (n : Nat) (hn : n ≤ 2147483648) : (decimal_nat n).length ≤ 10 := by
  unfold decimal_nat
  split
  · simp
  · rename_i h0
    simp only [List.length_map, List.length_reverse]
    by_contra hlen
    have h1 := Nat.base_pow_length_digits_le 10 n (by decide) h0
    have h2 : 10 ^ 11 ≤ 10 ^ (Nat.digits 10 n).length :=
      Nat.pow_le_pow_right (by decide) (by omega)
    omega

/-- A number typed in decimal is read back by `%i`, up to the narrowing of
`strtol`'s result to `int`. -/
theorem sscanf_i_decimal_any (v : Int) :
    sscanf_i (decimal v ++ ['\n']) = some (toInt32 (strtol_sat v)) := by
  obtain ⟨d, rest, hd, hhead⟩ := decimal_nat_head v.natAbs
  obtain ⟨hsp, _, hminus, hplus, _⟩ := digit_char_facts d hd
  have hmag := scan_magnitude_decimal_nat v.natAbs
  unfold sscanf_i decimal
  by_cases hneg : v < 0
  · have hv : -((v.natAbs : Nat) : Int) = v := by omega
    simp only [hneg, if_true, List.cons_append]
    have hdw : List.dropWhile isspace ('-' :: (decimal_nat v.natAbs ++ ['\n'])) =
        '-' :: (decimal_nat v.natAbs ++ ['\n']) := by
      rw [List.dropWhile_cons_of_neg (by decide)]
    simp only [hdw, if_true, hmag, hv]
  · have hv : ((v.natAbs : Nat) : Int) = v := by omega
    simp only [hneg, if_false]
    have hdw : List.dropWhile isspace (decimal_nat v.natAbs ++ ['\n']) =
        decimal_nat v.natAbs ++ ['\n'] := by
      rw [hhead, List.cons_append, List.dropWhile_cons_of_neg (by simp [hsp])]
    rw [hdw]
    have hshape : decimal_nat v.natAbs ++ ['\n'] = Char.ofNat (48 + d) :: (rest ++ ['\n']) := by
      rw [hhead, List.cons_append]
    have hm2 : scan_magnitude (Char.ofNat (48 + d) :: (rest ++ ['\n'])) = some v.natAbs := by
      rw [← hshape]; exact hmag
    rw [hshape]
    simp only [hminus, hplus, if_false, hm2, Bool.false_eq_true, hv]

theorem strtol_sat_of_int (v : Int) (h1 : INT_MIN ≤ v) (h2 : v ≤ INT_MAX) :
    toInt32 (strtol_sat v) = v := by
  unfold INT_MIN at h1
  unfold INT_MAX at h2
  have : strtol_sat v = v := by
    unfold strtol_sat LONG_MAX LONG_MIN
    have a : ¬ v > 9223372036854775807 := by omega
    have b : ¬ v < -9223372036854775808 := by omega
    simp only [a, b, if_false]
  rw [this]
  unfold toInt32
  omega

/-- What `fgets` stores when an `int` is typed in decimal: the text and its
newline, whole. -/
theorem take_decimal (v : Int) (h1 : INT_MIN ≤ v) (h2 : v ≤ INT_MAX) :
    (decimal v ++ ['\n']).take 79 = decimal v ++ ['\n'] := by
  apply List.take_of_length_le
  unfold INT_MIN at h1
  unfold INT_MAX at h2
  have hl := decimal_nat_length v.natAbs (by omega)
  unfold decimal
  split <;> simp <;> omega

/-- With an `int` typed in decimal, `get_int` returns it clamped. -/
theorem get_int_decimal (w : World) (min max d v : Int) (h1 : INT_MIN ≤ v) (h2 : v ≤ INT_MAX)
    (hline : w.stdin.line = decimal v) :
    (get_int w min max d).1 =
      (if (if v < min then toInt32 min else v) > max then toInt32 max
       else (if v < min then toInt32 min else v)) := by
  rw [get_int_fst, hline, take_decimal v h1 h2]
  unfold get_int_value
  have hs : sscanf_i (decimal v ++ ['\n']) = some v := by
    rw [sscanf_i_decimal_any, strtol_sat_of_int v h1 h2]
  have hh : ¬ ((decimal v ++ ['\n']).head? = some '\n') := by
    obtain ⟨d, rest, hd, hhead⟩ := decimal_nat_head v.natAbs
    have hnl := (digit_char_facts d hd).2.1
    unfold decimal
    split
    · simp
    · rw [hhead]
      simp [hnl]
  simp only [hh, if_false, hs]

/-! ## C9: the gain prompt -/

/-- C9, as stated, fails for integers outside the `int` range: 2147483648
typed at the gain prompt is narrowed to a negative `int`, so the gain
forwarded and remembered is 0, not 100. -/
theorem set_gain_overflow :
    decimal 2147483648 =
      ['2', '1', '4', '7', '4', '8', '3', '6', '4', '8'] ∧
    (World.start (fun _ => ['2', '1', '4', '7', '4', '8', '3', '6', '4', '8'])
      (fun _ => 0) (fun _ => 0)).stdin.line =
      ['2', '1', '4', '7', '4', '8', '3', '6', '4', '8'] ∧
    (set_gain (World.start (fun _ => ['2', '1', '4', '7', '4', '8', '3', '6', '4', '8'])
      (fun _ => 0) (fun _ => 0))).gain = 0 ∧
    (set_gain (World.start (fun _ => ['2', '1', '4', '7', '4', '8', '3', '6', '4', '8'])
      (fun _ => 0) (fun _ => 0))).log = [DeviceOp.SetGain 0] := by
  refine ⟨?_, by decide, by decide, by decide⟩
  simp [decimal, decimal_nat]

/-- C9, amended: for every integer `v` of the `int` range typed in decimal
at the gain prompt, `set_gain` forwards to the device and remembers
`clamp(v, 0, 100)`: `v` itself when `0 <= v <= 100`, 100 when `v > 100`, 0
when `v < 0`; 150 gives 100 and -10 gives 0; and the remembered gain is 100
at program start. -/
theorem set_gain_clamps (w : World) (v : Int) (h1 : INT_MIN ≤ v) (h2 : v ≤ INT_MAX)
    (hline : w.stdin.line = decimal v) :
    (set_gain w).gain = (if v < 0 then 0 else if v > 100 then 100 else v) ∧
    (set_gain w).log =
      w.log ++ [DeviceOp.SetGain (if v < 0 then 0 else if v > 100 then 100 else v)] ∧
    (0 ≤ v → v ≤ 100 → (set_gain w).gain = v) ∧
    (v > 100 → (set_gain w).gain = 100) ∧
    (v < 0 → (set_gain w).gain = 0) ∧
    (v = 150 → (set_gain w).gain = 100) ∧
    (v = -10 → (set_gain w).gain = 0) ∧
    (∀ (lines : Nat → List Char) (indeterminate registration : Nat → Int),
      (World.start lines indeterminate registration).gain = 100) := by
  have hg : (get_int w 0 100 w.gain).1 = (if v < 0 then 0 else if v > 100 then 100 else v) := by
    rw [get_int_decimal w 0 100 w.gain v h1 h2 hline]
    have a : toInt32 0 = 0 := rfl
    have b : toInt32 100 = 100 := rfl
    rw [a, b]
    by_cases hv : v < 0
    · simp [hv]
    · simp only [hv, if_false]
  have hgain : (set_gain w).gain = (if v < 0 then 0 else if v > 100 then 100 else v) := by
    unfold set_gain SDL_HapticSetGain
    exact hg
  have hlog : (set_gain w).log =
      w.log ++ [DeviceOp.SetGain (if v < 0 then 0 else if v > 100 then 100 else v)] := by
    unfold set_gain SDL_HapticSetGain
    simp only [hg]
    rfl
  refine ⟨hgain, hlog, ?_, ?_, ?_, ?_, ?_, fun _ _ _ => rfl⟩
  · intro a b
    rw [hgain]
    have x : ¬ v < 0 := by omega
    have y : ¬ v > 100 := by omega
    simp only [x, y, if_false]
  · intro a
    rw [hgain]
    have x : ¬ v < 0 := by omega
    simp only [x, a, if_false, if_true]
  · intro a
    rw [hgain]
    simp only [a, if_true]
  · intro a
    rw [hgain, a]
    rfl
  · intro a
    rw [hgain, a]
    rfl

theorem set_gain_clamps_witness :
    (set_gain (World.start (fun _ => decimal 150) (fun _ => 0) (fun _ => 0))).gain = 100 ∧
    (set_gain (World.start (fun _ => decimal 150) (fun _ => 0) (fun _ => 0))).log =
      [DeviceOp.SetGain 100] ∧
    (set_gain (World.start (fun _ => decimal (-10)) (fun _ => 0) (fun _ => 0))).gain = 0 ∧
    (set_gain (World.start (fun _ => ['1', '5', '0']) (fun _ => 0) (fun _ => 0))).gain = 100 ∧
    (set_gain (World.start (fun _ => ['-', '1', '0']) (fun _ => 0) (fun _ => 0))).gain = 0 :=
  have hline : ∀ v : Int,
      (World.start (fun _ => decimal v) (fun _ => 0) (fun _ => 0)).stdin.line = decimal v := by
    intro v
    have hno : ∀ c ∈ decimal v, c ≠ '\n' := by
      intro c hc
      unfold decimal at hc
      have hnat : ∀ n : Nat, ∀ c ∈ decimal_nat n, c ≠ '\n' := by
        intro n c hc
        unfold decimal_nat at hc
        split at hc
        · simp at hc; rw [hc]; decide
        · simp only [List.mem_map, List.mem_reverse] at hc
          obtain ⟨d, hd, rfl⟩ := hc
          exact (digit_char_facts d (Nat.digits_lt_base (by decide) hd)).2.1
      split at hc
      · rcases List.mem_cons.mp hc with h | h
        · rw [h]; decide
        · exact hnat _ c h
      · exact hnat _ c hc
    have hmem : '\n' ∉ decimal v := fun h => hno _ h rfl
    simp only [World.start, Stdin.line, Stdin.fill, List.not_mem_nil, if_false, List.nil_append]
    rw [List.takeWhile_append_of_pos (by
      intro c hc
      simpa using hno c hc)]
    simp
  ⟨((set_gain_clamps _ 150 (by decide) (by decide) (hline 150)).2.2.2.2.2.1 rfl),
   (set_gain_clamps _ 150 (by decide) (by decide) (hline 150)).2.1,
   ((set_gain_clamps _ (-10) (by decide) (by decide) (hline (-10))).2.2.2.2.2.2.1 rfl),
   by decide, by decide⟩

/-! ## C10: the remembered iteration count -/

theorem get_int_fst_int (w : World) (min max d : Int) :
    INT_MIN ≤ (get_int w min max d).1 ∧ (get_int w min max d).1 ≤ INT_MAX := by
  rw [get_int_fst]
  exact get_int_value_int _ _ min max d

theorem play_effect_iterations (w : World) (elems : List haptic_elem) :
    (play_effect w elems).iterations = w.iterations ∨
    (0 ≤ (play_effect w elems).iterations ∧ (play_effect w elems).iterations ≤ INT_MAX) := by
  unfold play_effect
  simp only []
  split
  · left
    exact (get_id_log w elems).2.2.1
  · right
    have hb := get_int_within_bounds_aux (get_id w elems).2 0 UINT_MAX
      (get_id w elems).2.iterations (by decide) (by decide) (by decide)
    have hi := get_int_fst_int (get_id w elems).2 0 UINT_MAX (get_id w elems).2.iterations
    simp only [SDL_HapticRunEffect]
    unfold INT_MAX at hi ⊢
    unfold toUint32
    omega

/-- The remembered iteration count is always a non-negative `int`. -/
theorem remembered_iterations_range (n : Int) (h : remembered_iterations n) :
    0 ≤ n ∧ n ≤ INT_MAX := by
  induction h with
  | initially => decide
  | played w elems _ ih =>
    rcases play_effect_iterations w elems with h | h
    · rw [h]; exact ih
    · exact h

/-- C10: for every iteration count `n` remembered from earlier
`play_effect` calls (0 at first), when `play_effect` finds the entered id and
the iteration prompt is answered with an empty line, the remembered count
stays `n` and `n` is the count passed to the device's run operation. -/
theorem play_effect_blank_keeps_iterations (w : World) (elems : List haptic_elem)
    (hrem : remembered_iterations w.iterations)
    (hfound : 0 ≤ (get_id w elems).1)
    (hblank : (get_id w elems).2.stdin.line = []) :
    (play_effect w elems).iterations = w.iterations ∧
    (play_effect w elems).log =
      w.log ++ [DeviceOp.RunEffect (get_id w elems).1 w.iterations] := by
  obtain ⟨r1, r2⟩ := remembered_iterations_range _ hrem
  have hit : (get_id w elems).2.iterations = w.iterations := (get_id_log w elems).2.2.1
  have hlog : (get_id w elems).2.log = w.log := (get_id_log w elems).1
  have hv : (get_int (get_id w elems).2 0 UINT_MAX (get_id w elems).2.iterations).1 =
      w.iterations := by
    rw [hit]
    apply get_int_blank_returns_default_aux _ 0 UINT_MAX w.iterations hblank r1 _ _ r2
    · unfold UINT_MAX; unfold INT_MAX at r2; omega
    · unfold INT_MIN; omega
  have hu : toUint32 w.iterations = w.iterations := by
    unfold toUint32; unfold INT_MAX at r2; omega
  have hnf : ¬ ((get_id w elems).1 < 0) := by omega
  unfold play_effect
  simp only [hnf, if_false, SDL_HapticRunEffect, hv, hu]
  exact ⟨trivial, by rw [← hlog]; rfl⟩

theorem play_effect_blank_keeps_iterations_witness :
    (play_effect (World.start (fun k => if k = 1 then ['3'] else []) (fun _ => 0) (fun _ => 0))
      [⟨zero_effect, 0, true⟩]).iterations = 3 ∧
    (play_effect
      (play_effect (World.start (fun k => if k = 1 then ['3'] else []) (fun _ => 0) (fun _ => 0))
        [⟨zero_effect, 0, true⟩])
      [⟨zero_effect, 0, true⟩]).iterations = 3 ∧
    (play_effect
      (play_effect (World.start (fun k => if k = 1 then ['3'] else []) (fun _ => 0) (fun _ => 0))
        [⟨zero_effect, 0, true⟩])
      [⟨zero_effect, 0, true⟩]).log = [DeviceOp.RunEffect 0 3] ++ [DeviceOp.RunEffect 0 3] :=
  ⟨by decide,
   (play_effect_blank_keeps_iterations
      (play_effect (World.start (fun k => if k = 1 then ['3'] else []) (fun _ => 0) (fun _ => 0))
        [⟨zero_effect, 0, true⟩])
      [⟨zero_effect, 0, true⟩]
      (remembered_iterations.played _ _ remembered_iterations.initially)
      (by decide) (by decide)).1,
   (play_effect_blank_keeps_iterations
      (play_effect (World.start (fun k => if k = 1 then ['3'] else []) (fun _ => 0) (fun _ => 0))
        [⟨zero_effect, 0, true⟩])
      [⟨zero_effect, 0, true⟩]
      (remembered_iterations.played _ _ remembered_iterations.initially)
      (by decide) (by decide)).2⟩

/-! ## C11: the main menu -/

theorem get_choice_fst (w : World) :
    (get_choice w).1 =
      (if (scanf_c w.stdin).1 = 'c' then choice.CREATE_EFFECT
       else if (scanf_c w.stdin).1 = 'm' then choice.MODIFY_EFFECT
       else if (scanf_c w.stdin).1 = 'p' then choice.PLAY_EFFECT
       else if (scanf_c w.stdin).1 = 's' then choice.STOP_EFFECT
       else if (scanf_c w.stdin).1 = 'd' then choice.DESTROY_EFFECT
       else if (scanf_c w.stdin).1 = 'a' then choice.SET_AUTOCENTER
       else if (scanf_c w.stdin).1 = 'g' then choice.SET_GAIN
       else if (scanf_c w.stdin).1 = 'q' then choice.QUIT
       else choice.TRY_AGAIN) := by
  unfold get_choice
  simp only []
  repeat' split
  all_goals rfl

/-- Any character can be the one `scanf("%c")` reads. -/
theorem scanf_c_any (ch : Char) (indeterminate registration : Nat → Int) :
    (scanf_c (World.start (fun _ => [ch]) indeterminate registration).stdin).1 = ch := by
  simp [scanf_c, Stdin.fill, World.start]

theorem read_choice_not_try_again (fuel : Nat) (w : World) (c : choice) (w' : World)
    (h : read_choice fuel w = some (c, w')) : c ≠ choice.TRY_AGAIN := by
  induction fuel generalizing w with
  | zero => simp [read_choice] at h
  | succ fuel ih =>
    unfold read_choice at h
    simp only [] at h
    split at h
    · rename_i hne
      simp only [Option.some.injEq] at h
      rw [h] at hne
      exact hne
    · exact ih _ h

theorem read_choice_retry (fuel : Nat) (w : World)
    (h : (get_choice w).1 = choice.TRY_AGAIN) :
    read_choice (fuel + 1) w = read_choice fuel (get_choice w).2 := by
  conv => lhs; unfold read_choice
  simp only [h, ne_eq, not_true_eq_false, if_false]

theorem read_choice_accept (fuel : Nat) (w : World)
    (h : (get_choice w).1 ≠ choice.TRY_AGAIN) :
    read_choice (fuel + 1) w = some (get_choice w) := by
  conv => lhs; unfold read_choice
  simp only [h, ne_eq, not_false_eq_true, if_true]

/-- The inner loop ends as soon as a recognised character is read. -/
theorem read_choice_returns (k : Nat) (w : World)
    (h : (get_choice (after_reads k w)).1 ≠ choice.TRY_AGAIN) :
    ∃ r, read_choice (k + 1) w = some r := by
  induction k generalizing w with
  | zero => exact ⟨_, read_choice_accept 0 w h⟩
  | succ k ih =>
    by_cases hc : (get_choice w).1 = choice.TRY_AGAIN
    · rw [read_choice_retry (k + 1) w hc]
      exact ih _ h
    · exact ⟨_, read_choice_accept (k + 1) w hc⟩

theorem run_loop_never_try_again (fuel : Nat) (w : World) (elems : List haptic_elem)
    (r : World × List haptic_elem × List choice) (h : run_loop fuel w elems = some r) :
    choice.TRY_AGAIN ∉ r.2.2 ∧ choice.QUIT ∉ r.2.2 := by
  induction fuel generalizing w elems r with
  | zero => simp [run_loop] at h
  | succ fuel ih =>
    unfold run_loop at h
    cases hr : read_choice (fuel + 1) w with
    | none => simp [hr] at h
    | some cw =>
      obtain ⟨c, w1⟩ := cw
      have hc := read_choice_not_try_again _ _ _ _ hr
      simp only [hr] at h
      by_cases hq : c = choice.QUIT
      · simp only [hq, if_true, Option.some.injEq] at h
        rw [← h]
        simp
      · simp only [hq, if_false] at h
        cases hrc : run_choice (fuel + 1) w1 elems c with
        | none => simp [hrc] at h
        | some we =>
          obtain ⟨w2, elems2⟩ := we
          simp only [hrc] at h
          cases hl : run_loop fuel w2 elems2 with
          | none => simp [hl] at h
          | some r2 =>
            simp only [hl, Option.some.injEq] at h
            obtain ⟨i1, i2⟩ := ih w2 elems2 r2 hl
            rw [← h]
            simp only [List.mem_cons, not_or]
            exact ⟨⟨Ne.symm hc, i1⟩, ⟨Ne.symm hq, i2⟩⟩

/-- C11: whatever character is read, `get_choice` returns CREATE_EFFECT for
'c', MODIFY_EFFECT for 'm', PLAY_EFFECT for 'p', STOP_EFFECT for 's',
DESTROY_EFFECT for 'd', SET_GAIN for 'g', SET_AUTOCENTER for 'a', QUIT for
'q', and TRY_AGAIN for every other character (and every character can be
read).  The inner loop of `run` reads again after
TRY_AGAIN, hands on the first other choice, returns as soon as one is read,
and never returns TRY_AGAIN; so the choices `run` hands to `run_choice` never
include TRY_AGAIN. -/
theorem menu_choice_mapping (w : World) :
    ((scanf_c w.stdin).1 = 'c' → (get_choice w).1 = choice.CREATE_EFFECT) ∧
    ((scanf_c w.stdin).1 = 'm' → (get_choice w).1 = choice.MODIFY_EFFECT) ∧
    ((scanf_c w.stdin).1 = 'p' → (get_choice w).1 = choice.PLAY_EFFECT) ∧
    ((scanf_c w.stdin).1 = 's' → (get_choice w).1 = choice.STOP_EFFECT) ∧
    ((scanf_c w.stdin).1 = 'd' → (get_choice w).1 = choice.DESTROY_EFFECT) ∧
    ((scanf_c w.stdin).1 = 'g' → (get_choice w).1 = choice.SET_GAIN) ∧
    ((scanf_c w.stdin).1 = 'a' → (get_choice w).1 = choice.SET_AUTOCENTER) ∧
    ((scanf_c w.stdin).1 = 'q' → (get_choice w).1 = choice.QUIT) ∧
    ((scanf_c w.stdin).1 ∉ ['c', 'm', 'p', 's', 'd', 'g', 'a', 'q'] →
      (get_choice w).1 = choice.TRY_AGAIN) ∧
    (∀ (ch : Char) (indeterminate registration : Nat → Int),
      (scanf_c (World.start (fun _ => [ch]) indeterminate registration).stdin).1 = ch) ∧
    (∀ fuel : Nat, (get_choice w).1 = choice.TRY_AGAIN →
      read_choice (fuel + 1) w = read_choice fuel (get_choice w).2) ∧
    (∀ fuel : Nat, (get_choice w).1 ≠ choice.TRY_AGAIN →
      read_choice (fuel + 1) w = some (get_choice w)) ∧
    (∀ k : Nat, (get_choice (after_reads k w)).1 ≠ choice.TRY_AGAIN →
      ∃ r, read_choice (k + 1) w = some r) ∧
    (∀ (fuel : Nat) (c : choice) (w' : World),
      read_choice fuel w = some (c, w') → c ≠ choice.TRY_AGAIN) ∧
    (∀ (fuel : Nat) (elems : List haptic_elem) (r : World × List haptic_elem × List choice),
      run_loop fuel w elems = some r → choice.TRY_AGAIN ∉ r.2.2) := by
  refine ⟨?_, ?_, ?_, ?_, ?_, ?_, ?_, ?_, ?_, scanf_c_any,
    fun fuel => read_choice_retry fuel w, fun fuel => read_choice_accept fuel w,
    fun k => read_choice_returns k w, fun fuel => read_choice_not_try_again fuel w,
    fun fuel elems r h => (run_loop_never_try_again fuel w elems r h).1⟩
  all_goals
    intro h
    rw [get_choice_fst]
  · simp [h]
  · simp [h]
  · simp [h]
  · simp [h]
  · simp [h]
  · simp [h]
  · simp [h]
  · simp [h]
  · simp only [List.mem_cons, List.mem_singleton, List.not_mem_nil, or_false, not_or] at h
    obtain ⟨h1, h2, h3, h4, h5, h6, h7, h8⟩ := h
    simp only [h1, h2, h3, h4, h5, h6, h7, h8, if_false]

theorem menu_choice_mapping_witness :
    (run 6 (World.start (fun k => [['x'], ['g'], ['5', '0'], ['?'], ['q']].getD k [])
      (fun _ => 0) (fun _ => 0)) 2).map (fun r => (r.2.2, r.1.log)) =
      some ([choice.SET_GAIN], [DeviceOp.SetGain 50]) ∧
    (get_choice (World.start (fun k => [['x'], ['g'], ['5', '0'], ['?'], ['q']].getD k [])
      (fun _ => 0) (fun _ => 0))).1 = choice.TRY_AGAIN ∧
    read_choice (5 + 1)
      (World.start (fun k => [['x'], ['g'], ['5', '0'], ['?'], ['q']].getD k [])
        (fun _ => 0) (fun _ => 0)) =
      read_choice 5 (get_choice
        (World.start (fun k => [['x'], ['g'], ['5', '0'], ['?'], ['q']].getD k [])
          (fun _ => 0) (fun _ => 0))).2 ∧
    (read_choice 6
      (World.start (fun k => [['x'], ['g'], ['5', '0'], ['?'], ['q']].getD k [])
        (fun _ => 0) (fun _ => 0))).map (fun r => r.1) = some choice.SET_GAIN :=
  ⟨by decide, by decide,
   (menu_choice_mapping
      (World.start (fun k => [['x'], ['g'], ['5', '0'], ['?'], ['q']].getD k [])
        (fun _ => 0) (fun _ => 0))).2.2.2.2.2.2.2.2.2.2.1 5 (by decide),
   by decide⟩

/-! ## C12: modifying a condition effect -/

theorem get_condition_effect_input_kept (w : World) (e : SDL_HapticEffect) :
    (get_condition_effect_input w e).1.type = e.type ∧
    (get_condition_effect_input w e).1.direction.type = e.direction.type ∧
    (get_condition_effect_input w e).1.direction.dir.i1 = e.direction.dir.i1 ∧
    (get_condition_effect_input w e).1.direction.dir.i2 = e.direction.dir.i2 ∧
    (get_condition_effect_input w e).1.button = e.button ∧
    (get_condition_effect_input w e).1.interval = e.interval ∧
    ∀ f ∈ condition_members,
      (f (get_condition_effect_input w e).1.condition).i1 = (f e.condition).i1 ∧
      (f (get_condition_effect_input w e).1.condition).i2 = (f e.condition).i2 := by
  simp only [get_condition_effect_input, FFB_ATTR_fst, attr_direction_dir0, attr_length,
    attr_delay, attr_condition_center0, attr_condition_deadband0, attr_condition_left_coeff0,
    attr_condition_right_coeff0, attr_condition_left_sat0, attr_condition_right_sat0]
  refine ⟨trivial, trivial, trivial, trivial, trivial, trivial, ?_⟩
  intro f hf
  simp only [condition_members, List.mem_cons, List.mem_singleton, List.not_mem_nil,
    or_false] at hf
  rcases hf with rfl | rfl | rfl | rfl | rfl | rfl <;> exact ⟨rfl, rfl⟩

/-- The condition editor changes `direction.dir[0]`, `length`, `delay` and
axis-0 entries only. -/
theorem get_condition_effect_input_frame (w : World) (e : SDL_HapticEffect) :
    condition_modify_frame e (get_condition_effect_input w e).1 := by
  obtain ⟨k1, k2, k3, k4, k5, k6, k7⟩ := get_condition_effect_input_kept w e
  refine ⟨k1, k2, k3, k4, k5, k6, ?_⟩
  intro f hf
  obtain ⟨a, b⟩ := k7 f hf
  refine ⟨a, b, ?_⟩
  intro h1 h2 hne
  rw [a, b, h1, h2]
  exact ⟨hne, hne, rfl⟩

theorem condition_update_logged (w : World) (id : Int) (e : SDL_HapticEffect) :
    (SDL_HapticUpdateEffect (get_condition_effect_input w e).2 id
        (get_condition_effect_input w e).1).log =
      w.log ++ [DeviceOp.UpdateEffect id (get_condition_effect_input w e).1] := by
  obtain ⟨_, _, _, hlog, _⟩ := get_condition_effect_input_input_only w e
  simp only [SDL_HapticUpdateEffect, hlog]

/-- C12: for each of `modify_spring`, `modify_damper`, `modify_inertia` and
`modify_friction` (the handlers `modify_effect` selects for the four
condition types), whatever is answered to the prompts, the effect handed to
the device update differs from the one before in `direction.dir[0]`,
`length`, `delay` and the axis-0 entries of right_sat, left_sat, right_coeff,
left_coeff, deadband and center at most: the axis-1 and axis-2 entries keep
their values, so where the three axes agreed and the axis-0 entry changes,
axis 0 differs from axes 1 and 2 afterwards. -/
theorem modify_condition_changes_axis0_only (w : World) (id : Int) (e : SDL_HapticEffect) :
    (condition_modify_frame e (modify_spring w id e).1 ∧
      (modify_spring w id e).2.log =
        w.log ++ [DeviceOp.UpdateEffect id (modify_spring w id e).1] ∧
      modify_dispatch (get_modify_choice SDL_HAPTIC_SPRING) w id e = modify_spring w id e) ∧
    (condition_modify_frame e (modify_damper w id e).1 ∧
      (modify_damper w id e).2.log =
        w.log ++ [DeviceOp.UpdateEffect id (modify_damper w id e).1] ∧
      modify_dispatch (get_modify_choice SDL_HAPTIC_DAMPER) w id e = modify_damper w id e) ∧
    (condition_modify_frame e (modify_inertia w id e).1 ∧
      (modify_inertia w id e).2.log =
        w.log ++ [DeviceOp.UpdateEffect id (modify_inertia w id e).1] ∧
      modify_dispatch (get_modify_choice SDL_HAPTIC_INERTIA) w id e = modify_inertia w id e) ∧
    (condition_modify_frame e (modify_friction w id e).1 ∧
      (modify_friction w id e).2.log =
        w.log ++ [DeviceOp.UpdateEffect id (modify_friction w id e).1] ∧
      modify_dispatch (get_modify_choice SDL_HAPTIC_FRICTION) w id e = modify_friction w id e) := by
  refine ⟨⟨?_, ?_, rfl⟩, ⟨?_, ?_, rfl⟩, ⟨?_, ?_, rfl⟩, ⟨?_, ?_, rfl⟩⟩
  · simp only [modify_spring]; exact get_condition_effect_input_frame w e
  · simp only [modify_spring]; exact condition_update_logged w id e
  · simp only [modify_damper]; exact get_condition_effect_input_frame w e
  · simp only [modify_damper]; exact condition_update_logged w id e
  · simp only [modify_inertia]; exact get_condition_effect_input_frame w e
  · simp only [modify_inertia]; exact condition_update_logged w id e
  · simp only [modify_friction]; exact get_condition_effect_input_frame w e
  · simp only [modify_friction]; exact condition_update_logged w id e

theorem modify_condition_changes_axis0_only_witness :
    (create_spring (World.start (fun _ => ['7']) (fun _ => 0) (fun _ => 0))
      zero_effect).2.1.condition.right_sat = ⟨7, 7, 7⟩ ∧
    (modify_spring (World.start (fun _ => ['9']) (fun _ => 0) (fun _ => 0)) 0
      (create_spring (World.start (fun _ => ['7']) (fun _ => 0) (fun _ => 0))
        zero_effect).2.1).1.condition.right_sat = ⟨9, 7, 7⟩ ∧
    ((modify_spring (World.start (fun _ => ['9']) (fun _ => 0) (fun _ => 0)) 0
      (create_spring (World.start (fun _ => ['7']) (fun _ => 0) (fun _ => 0))
        zero_effect).2.1).1.condition.right_sat.i0 ≠
      (modify_spring (World.start (fun _ => ['9']) (fun _ => 0) (fun _ => 0)) 0
      (create_spring (World.start (fun _ => ['7']) (fun _ => 0) (fun _ => 0))
        zero_effect).2.1).1.condition.right_sat.i1 ∧
     (modify_spring (World.start (fun _ => ['9']) (fun _ => 0) (fun _ => 0)) 0
      (create_spring (World.start (fun _ => ['7']) (fun _ => 0) (fun _ => 0))
        zero_effect).2.1).1.condition.right_sat.i0 ≠
      (modify_spring (World.start (fun _ => ['9']) (fun _ => 0) (fun _ => 0)) 0
      (create_spring (World.start (fun _ => ['7']) (fun _ => 0) (fun _ => 0))
        zero_effect).2.1).1.condition.right_sat.i2 ∧
     (modify_spring (World.start (fun _ => ['9']) (fun _ => 0) (fun _ => 0)) 0
      (create_spring (World.start (fun _ => ['7']) (fun _ => 0) (fun _ => 0))
        zero_effect).2.1).1.condition.right_sat.i1 =
      (modify_spring (World.start (fun _ => ['9']) (fun _ => 0) (fun _ => 0)) 0
      (create_spring (World.start (fun _ => ['7']) (fun _ => 0) (fun _ => 0))
        zero_effect).2.1).1.condition.right_sat.i2) :=
  ⟨by decide, by decide,
   ((modify_condition_changes_axis0_only
      (World.start (fun _ => ['9']) (fun _ => 0) (fun _ => 0)) 0
      (create_spring (World.start (fun _ => ['7']) (fun _ => 0) (fun _ => 0))
        zero_effect).2.1).1.1.2.2.2.2.2.2
      SDL_HapticCondition.right_sat (by simp [condition_members])).2.2
      (by decide) (by decide) (by decide)⟩

end Ffbsdl
